import Mathlib

/-!
Verification development for the website-redesign pipeline
(content chunker, image analyzer, model router, token-bucket rate limiter,
content optimizer).

The TypeScript sources operate on HTML documents through cheerio.  We embed
documents as a tree of nodes (`HNode`); a loaded document is the list of the
body's child nodes.  Markup strings manipulated by the source are represented
by their parse trees, and the string operations the source performs on them
(length, substring search) are applied to the canonical serialization
(`renderList`).  Only the selector features actually used by the sources are
modelled (tag, class, attribute equality / presence / substring, and the
single-level descendant combinator).
-/

/-! ## String helpers (JS String.prototype operations) -/

/-- Char-list version of "n is a leading segment of h". -/
def charsLead : List Char → List Char → Bool
  | [], _ => true
  | _ :: _, [] => false
  | a :: as, b :: bs => a == b && charsLead as bs

/-- Char-list version of substring containment. -/
def charsHasSub (n : List Char) : List Char → Bool
  | [] => charsLead n []
  | c :: t => charsLead n (c :: t) || charsHasSub n t

/-- Models JS `hay.includes(needle)`. -/
def strContains (hay needle : String) : Bool :=
  charsHasSub needle.toList hay.toList

/-- Models JS `Math.ceil(n / d)` on non-negative integers. -/
def ceilDiv (n d : Nat) : Nat := (n + d - 1) / d

/-- Models JS `hay.startsWith(needle)`. -/
def strLeads (hay needle : String) : Bool :=
  charsLead needle.toList hay.toList

/-- Models JS `s.toLowerCase()`. -/
def strLower (s : String) : String :=
  String.mk (s.toList.map Char.toLower)

def isWSChar (c : Char) : Bool :=
  c == ' ' || c == '\t' || c == '\n' || c == '\r'

/-- Models JS `s.trim()`. -/
def strTrim (s : String) : String :=
  String.mk (((s.toList.dropWhile isWSChar).reverse.dropWhile isWSChar).reverse)

/-- Models JS `s.substring(0, n)`. -/
def strTake (s : String) (n : Nat) : String :=
  String.mk (s.toList.take n)

/-- Split on a single-character separator (the source only splits on one
character: space, or a brace). -/
def charsSplitOnChar (sep : Char) : List Char → List (List Char)
  | [] => [[]]
  | c :: t =>
    match charsSplitOnChar sep t with
    | [] => [[]]
    | h :: rest => if c == sep then [] :: h :: rest else (c :: h) :: rest

def strSplitOnChar (sep : Char) (s : String) : List String :=
  (charsSplitOnChar sep s.toList).map String.mk

/-- Join a list of strings with a separator. -/
def strJoinWith (sep : String) : List String → String
  | [] => ""
  | [x] => x
  | x :: y :: t => x ++ sep ++ strJoinWith sep (y :: t)

/-! ## HTML document model -/

/-- A parsed HTML node: element (tag, attributes, children) or text. -/
inductive HNode where
  | elem (tag : String) (attrs : List (String × String)) (children : List HNode)
  | text (s : String)
deriving Repr, Inhabited

mutual

def decEqHNode : (a b : HNode) → Decidable (a = b)
  | .text s, .text t =>
    if h : s = t then isTrue (by rw [h])
    else isFalse (by intro hh; cases hh; exact h rfl)
  | .text _, .elem _ _ _ => isFalse (by intro h; cases h)
  | .elem _ _ _, .text _ => isFalse (by intro h; cases h)
  | .elem t1 a1 c1, .elem t2 a2 c2 =>
    if ht : t1 = t2 then
      if ha : a1 = a2 then
        match decEqHNodeList c1 c2 with
        | isTrue hc => isTrue (by rw [ht, ha, hc])
        | isFalse hc => isFalse (by intro h; cases h; exact hc rfl)
      else isFalse (by intro h; cases h; exact ha rfl)
    else isFalse (by intro h; cases h; exact ht rfl)

def decEqHNodeList : (a b : List HNode) → Decidable (a = b)
  | [], [] => isTrue rfl
  | [], _ :: _ => isFalse (by intro h; cases h)
  | _ :: _, [] => isFalse (by intro h; cases h)
  | x :: xs, y :: ys =>
    match decEqHNode x y, decEqHNodeList xs ys with
    | isTrue h1, isTrue h2 => isTrue (by rw [h1, h2])
    | isFalse h1, _ => isFalse (by intro h; cases h; exact h1 rfl)
    | _, isFalse h2 => isFalse (by intro h; cases h; exact h2 rfl)

end

instance : DecidableEq HNode := decEqHNode

/-- First value bound to attribute `k`. -/
def attrVal (attrs : List (String × String)) (k : String) : Option String :=
  (attrs.find? (fun p => p.1 == k)).map (fun p => p.2)

/-- Models `$el.attr(k) || ''` (text nodes have no attributes). -/
def HNode.attrOr (n : HNode) (k : String) : String :=
  match n with
  | .text _ => ""
  | .elem _ attrs _ => (attrVal attrs k).getD ""

def HNode.isTag (n : HNode) (t : String) : Bool :=
  match n with
  | .elem tg _ _ => tg == t
  | .text _ => false

def HNode.isElem (n : HNode) : Bool :=
  match n with
  | .elem _ _ _ => true
  | .text _ => false

/-- Class attribute split on spaces, empty entries dropped. -/
def HNode.classList (n : HNode) : List String :=
  (strSplitOnChar ' ' (n.attrOr "class")).filter (fun c => c ≠ "")

/-- Tags serialized without a closing tag (HTML void elements). -/
def voidTags : List String :=
  ["img", "input", "br", "hr", "area", "base", "col", "embed", "source",
   "track", "wbr", "meta", "link"]

def renderAttrs : List (String × String) → String
  | [] => ""
  | (k, v) :: rest => " " ++ k ++ "=\x22" ++ v ++ "\x22" ++ renderAttrs rest

mutual

/-- Canonical serialization of a node (models cheerio's `$.html(el)`). -/
def render : HNode → String
  | .text s => s
  | .elem t a cs =>
    if t ∈ voidTags then "<" ++ t ++ renderAttrs a ++ ">"
    else "<" ++ t ++ renderAttrs a ++ ">" ++ renderList cs ++ "</" ++ t ++ ">"

/-- Serialization of a forest (models inner HTML). -/
def renderList : List HNode → String
  | [] => ""
  | n :: ns => render n ++ renderList ns

end

/-- Inner HTML of a node. -/
def innerHtml : HNode → String
  | .text _ => ""
  | .elem _ _ cs => renderList cs

mutual

/-- Concatenated text content of a subtree (models `$el.text()`). -/
def textContent : HNode → String
  | .text s => s
  | .elem _ _ cs => textContentList cs

def textContentList : List HNode → String
  | [] => ""
  | n :: ns => textContent n ++ textContentList ns

end

mutual

/-- All elements of a subtree in document (pre)order, each paired with its
ancestor chain (nearest ancestor first).  `ancs` is the chain above the
argument. -/
def collectNode (ancs : List HNode) : HNode → List (List HNode × HNode)
  | .text _ => []
  | .elem t a cs =>
    (ancs, HNode.elem t a cs) :: collectList (HNode.elem t a cs :: ancs) cs

def collectList (ancs : List HNode) : List HNode → List (List HNode × HNode)
  | [] => []
  | n :: ns => collectNode ancs n ++ collectList ancs ns

end

/-! ## Selector model

Only the features used by the sources: tag selectors, class selectors,
attribute selectors ([k="v"], [k], [k*="v"]), optionally a tag with an
attribute-substring filter, and a single descendant combinator
("ancestor descendant"). -/

/-- Simple selector tested against a single element. -/
inductive SSel where
  | tagSel (t : String)
  | clsSel (c : String)
  | attrEq (k v : String)
  | attrSub (k v : String)
  | attrHas (k : String)
deriving Repr, DecidableEq

def matchesSimple (s : SSel) (n : HNode) : Bool :=
  match n with
  | .text _ => false
  | .elem _ _ _ =>
    match s with
    | .tagSel t => n.isTag t
    | .clsSel c => n.classList.contains c
    | .attrEq k v => n.attrOr k == v && (match n with
        | .elem _ attrs _ => (attrVal attrs k).isSome
        | .text _ => false)
    | .attrSub k v => (match n with
        | .elem _ attrs _ => match attrVal attrs k with
          | some x => strContains x v
          | none => false
        | .text _ => false)
    | .attrHas k => (match n with
        | .elem _ attrs _ => (attrVal attrs k).isSome
        | .text _ => false)

/-- Compound selector: conjunction of simple selectors on the subject,
optionally requiring some strict ancestor to match `ancestor`. -/
structure CSel where
  ancestor : Option SSel
  subject : List SSel
deriving Repr, DecidableEq

/-- Does element `n` (with strict-ancestor chain `ancs`) match `c`? -/
def matchesC (ancs : List HNode) (n : HNode) (c : CSel) : Bool :=
  c.subject.all (fun s => matchesSimple s n) &&
    (match c.ancestor with
     | none => true
     | some a => ancs.any (fun x => matchesSimple a x))

/-- Comma-separated selector list. -/
def matchesAny (ancs : List HNode) (n : HNode) (sel : List CSel) : Bool :=
  sel.any (fun c => matchesC ancs n c)

/-- Models `$el.closest(sel)`: nearest of self and ancestors matching.
The chain passed to the ancestor part of a compound selector is the portion
above the candidate. -/
def closestMatching (ancs : List HNode) (n : HNode) (sel : List CSel) :
    Option HNode :=
  match ancs with
  | [] => if matchesAny [] n sel then some n else none
  | a :: rest =>
    if matchesAny ancs n sel then some n else closestMatching rest a sel

/-- Elements of the subtree of `n` below `n` (models `$el.find(...)` scope),
paired with ancestors relative to `ancs` for `n`. -/
def descendantsOf (ancs : List HNode) (n : HNode) : List (List HNode × HNode) :=
  match n with
  | .text _ => []
  | .elem t a cs => collectList (HNode.elem t a cs :: ancs) cs

/-! ## Content Chunker (source: contentChunker.ts) -/

namespace ContentChunker

inductive Importance where
  | critical
  | product
  | hero
  | decorative
deriving Repr, DecidableEq, Inhabited

structure ImageInfo where
  src : String
  alt : String
  estimatedTokens : Nat
  importance : Importance
  context : String
deriving Repr, DecidableEq, Inhabited

structure ImageAnalysis where
  count : Nat
  totalEstimatedTokens : Nat
  criticalImages : List ImageInfo
  productImages : List ImageInfo
  heroImages : List ImageInfo
  decorativeImages : List ImageInfo
deriving Repr, DecidableEq

inductive SectionType where
  | header
  | nav
  | hero
  | main
  | product
  | gallery
  | aside
  | footer
  | mixed
deriving Repr, DecidableEq, Inhabited

inductive Priority where
  | critical
  | high
  | medium
  | low
deriving Repr, DecidableEq, Inhabited

/-- A content chunk.  The markup payload is kept in parsed form; the string
the source stores is `renderList html`. -/
structure ContentChunk where
  id : String
  type : SectionType
  html : List HNode
  css : String
  javascript : String
  images : List ImageInfo
  estimatedTokens : Nat
  priority : Priority
  preserveOrder : Bool
deriving Repr, DecidableEq, Inhabited

structure ChunkMetadata where
  originalSize : Nat
  optimizedSize : Nat
  compressionRatio : ℚ
deriving Repr

structure ChunkingResult where
  chunks : List ContentChunk
  totalEstimatedTokens : Nat
  imageAnalysis : ImageAnalysis
  metadata : ChunkMetadata
deriving Repr

/-- CRITICAL_IMAGE_SELECTORS.  Each entry carries the full selector and its
first whitespace-separated token (the argument the source passes to the
`closest()` probe). -/
def CRITICAL_IMAGE_SELECTORS : List (CSel × SSel) :=
  [ (⟨some (.clsSel "product"), [.tagSel "img"]⟩, .clsSel "product"),
    (⟨none, [.clsSel "product-image"]⟩, .clsSel "product-image"),
    (⟨none, [.clsSel "product-photo"]⟩, .clsSel "product-photo"),
    (⟨some (.clsSel "product-gallery"), [.tagSel "img"]⟩, .clsSel "product-gallery"),
    (⟨some (.clsSel "shop"), [.tagSel "img"]⟩, .clsSel "shop"),
    (⟨some (.clsSel "catalog"), [.tagSel "img"]⟩, .clsSel "catalog"),
    (⟨none, [.clsSel "item-image"]⟩, .clsSel "item-image"),
    (⟨none, [.attrHas "data-product-image"]⟩, .attrHas "data-product-image"),
    (⟨some (.clsSel "hero"), [.tagSel "img"]⟩, .clsSel "hero"),
    (⟨none, [.clsSel "hero-image"]⟩, .clsSel "hero-image"),
    (⟨some (.clsSel "banner"), [.tagSel "img"]⟩, .clsSel "banner"),
    (⟨none, [.clsSel "main-image"]⟩, .clsSel "main-image") ]

/-- SECTION_SELECTORS. -/
def sectionSelector : SectionType → List CSel
  | .header => [⟨none, [.tagSel "header"]⟩, ⟨none, [.clsSel "header"]⟩,
      ⟨none, [.clsSel "site-header"]⟩, ⟨none, [.clsSel "main-header"]⟩,
      ⟨none, [.attrEq "role" "banner"]⟩]
  | .nav => [⟨none, [.tagSel "nav"]⟩, ⟨none, [.clsSel "nav"]⟩,
      ⟨none, [.clsSel "navigation"]⟩, ⟨none, [.clsSel "navbar"]⟩,
      ⟨none, [.clsSel "menu"]⟩, ⟨none, [.attrEq "role" "navigation"]⟩]
  | .hero => [⟨none, [.clsSel "hero"]⟩, ⟨none, [.clsSel "hero-section"]⟩,
      ⟨none, [.clsSel "banner"]⟩, ⟨none, [.clsSel "jumbotron"]⟩,
      ⟨none, [.clsSel "intro-section"]⟩]
  | .main => [⟨none, [.tagSel "main"]⟩, ⟨none, [.clsSel "main"]⟩,
      ⟨none, [.clsSel "main-content"]⟩, ⟨none, [.clsSel "content"]⟩,
      ⟨none, [.attrEq "role" "main"]⟩]
  | .product => [⟨none, [.clsSel "product"]⟩, ⟨none, [.clsSel "products"]⟩,
      ⟨none, [.clsSel "shop"]⟩, ⟨none, [.clsSel "catalog"]⟩,
      ⟨none, [.clsSel "items"]⟩, ⟨none, [.clsSel "product-grid"]⟩,
      ⟨none, [.clsSel "product-list"]⟩]
  | .gallery => [⟨none, [.clsSel "gallery"]⟩, ⟨none, [.clsSel "photo-gallery"]⟩,
      ⟨none, [.clsSel "image-gallery"]⟩, ⟨none, [.clsSel "portfolio"]⟩]
  | .aside => [⟨none, [.tagSel "aside"]⟩, ⟨none, [.clsSel "aside"]⟩,
      ⟨none, [.clsSel "sidebar"]⟩, ⟨none, [.clsSel "side-content"]⟩,
      ⟨none, [.attrEq "role" "complementary"]⟩]
  | .footer => [⟨none, [.tagSel "footer"]⟩, ⟨none, [.clsSel "footer"]⟩,
      ⟨none, [.clsSel "site-footer"]⟩, ⟨none, [.clsSel "main-footer"]⟩,
      ⟨none, [.attrEq "role" "contentinfo"]⟩]
  | .mixed => []

/-- Selector list of the `closest()` probe that provides an image's
surrounding context. -/
def contextClosestSel : List CSel :=
  [⟨none, [.attrSub "class" "product"]⟩, ⟨none, [.attrSub "class" "hero"]⟩,
   ⟨none, [.attrSub "class" "gallery"]⟩, ⟨none, [.tagSel "section"]⟩,
   ⟨none, [.tagSel "div"]⟩]

/-- Token estimate for one image.  `Math.ceil(len / 3.5)` is modelled as the
exact rational ceiling `ceil(2 * len / 7)`. -/
def estimateImageTokens (src context : String) : Nat :=
  if strLeads src "data:image/" then ceilDiv (2 * src.length) 7
  else ceilDiv (src.length + context.length) 4

def productKeywords : List String := ["product", "item", "shop", "buy", "catalog", "store"]

def heroKeywords : List String := ["hero", "banner", "main", "featured", "primary"]

def keywordHit (alt className context : String) (kws : List String) : Bool :=
  kws.any (fun k =>
    strContains (strLower alt) k || strContains (strLower className) k ||
      strContains (strLower context) k)

/-- The CRITICAL_IMAGE_SELECTORS loop: the image matches the full selector, or
`closest(first token)` is non-empty (self or any ancestor matches the first
token). -/
def isCriticalContext (ancs : List HNode) (img : HNode) : Bool :=
  CRITICAL_IMAGE_SELECTORS.any (fun pr =>
    matchesC ancs img pr.1 || (closestMatching ancs img [⟨none, [pr.2]⟩]).isSome)

/-- classifyImageImportance.  `position` is the index of the image among all
img elements of the document, in document order. -/
def classifyImageImportance (ancs : List HNode) (img : HNode) (context : String)
    (position : Nat) : Importance :=
  let src := img.attrOr "src"
  let alt := img.attrOr "alt"
  let className := img.attrOr "class"
  if strLeads src "data:image/" && decide (src.length > 50000) then .critical
  else if isCriticalContext ancs img then .critical
  else if keywordHit alt className context productKeywords then .product
  else if keywordHit alt className context heroKeywords then .hero
  else if decide (position < 3) && decide (src.length > 10000) then .hero
  else .decorative

/-- Context snippet for an image: inner HTML of the closest
product/hero/gallery/section/div container, empty when there is none. -/
def imageContext (ancs : List HNode) (img : HNode) : String :=
  match closestMatching ancs img contextClosestSel with
  | some m => innerHtml m
  | none => ""

/-- analyzeImages. -/
def analyzeImages (doc : List HNode) : ImageAnalysis :=
  let imgEls := (collectList [] doc).filter (fun p => p.2.isTag "img")
  let images := imgEls.enum.filterMap (fun pr =>
    let pos := pr.1
    let ancs := pr.2.1
    let n := pr.2.2
    let src := n.attrOr "src"
    if src == "" then none
    else
      let context := imageContext ancs n
      some { src := src, alt := n.attrOr "alt",
             estimatedTokens := estimateImageTokens src context,
             importance := classifyImageImportance ancs n context pos,
             context := strTake context 200 : ImageInfo })
  { count := images.length,
    totalEstimatedTokens := (images.map (fun i => i.estimatedTokens)).sum,
    criticalImages := images.filter (fun i => i.importance == .critical),
    productImages := images.filter (fun i => i.importance == .product),
    heroImages := images.filter (fun i => i.importance == .hero),
    decorativeImages := images.filter (fun i => i.importance == .decorative) }

/-- Concatenation of the analysis's per-importance lists, in the order the
source concatenates them when resolving a section's images by src. -/
def allRecords (a : ImageAnalysis) : List ImageInfo :=
  a.criticalImages ++ a.productImages ++ a.heroImages ++ a.decorativeImages

/-- img elements of the section's subtree (models `$section.find('img')`). -/
def imgDescendants (sec : HNode) : List HNode :=
  ((descendantsOf [] sec).map (fun p => p.2)).filter (fun m => m.isTag "img")

/-- Images of a section: each descendant img with a src is resolved to the
first analysis record with the same src. -/
def sectionImagesOf (recs : List ImageInfo) (sec : HNode) : List ImageInfo :=
  (imgDescendants sec).filterMap (fun m =>
    let src := m.attrOr "src"
    if src == "" then none
    else recs.find? (fun r => r.src == src))

/-- Priority derivation for a section chunk. -/
def chunkPriorityFor (images : List ImageInfo) (sty : SectionType) : Priority :=
  if images.any (fun i => i.importance == .critical || i.importance == .product) then .critical
  else if images.any (fun i => i.importance == .hero) || sty == .hero then .high
  else if sty == .footer || sty == .nav then .low
  else .medium

/-- extractRelevantCSS: keep the rules whose selector text mentions a class
or id found in the section, or body/universal/at-rules. -/
def extractRelevantCSS (css : String) (sec : HNode) : String :=
  if css == "" then ""
  else
    let elems := sec :: (descendantsOf [] sec).map (fun p => p.2)
    let classNames := elems.flatMap (fun e =>
      (strSplitOnChar ' ' (e.attrOr "class")).filter (fun c => strTrim c ≠ ""))
    let ids := elems.filterMap (fun e =>
      match e with
      | .elem _ attrs _ =>
        match attrVal attrs "id" with
        | some i => if i == "" then none else some i
        | none => none
      | .text _ => none)
    let cssRules := (strSplitOnChar '}' css).filter (fun r => strTrim r ≠ "")
    let relevant := cssRules.filterMap (fun rule =>
      let selector := strTrim ((strSplitOnChar '{' rule).headD "")
      if selector == "" then none
      else
        let applies := classNames.any (fun c => strContains selector ("." ++ c)) ||
          ids.any (fun i => strContains selector ("#" ++ i)) ||
          strContains selector "body" || strContains selector "*" ||
          strContains selector "@"
        if applies then some (rule ++ "\x7d") else none)
    strJoinWith "\n" relevant

/-- extractRelevantJS. -/
def extractRelevantJS (javascript : String) (_sec : HNode) : String :=
  if javascript == "" then ""
  else if javascript.length > 10000 then "" else javascript

/-- One emitted section chunk. -/
def buildSectionChunk (recs : List ImageInfo) (css js : String)
    (sty : SectionType) (cid : Nat) (sec : HNode) : ContentChunk :=
  let sectionImages := sectionImagesOf recs sec
  let sectionHtml := render sec
  { id := "chunk-" ++ toString cid,
    type := sty,
    html := [sec],
    css := extractRelevantCSS css sec,
    javascript := extractRelevantJS js sec,
    images := sectionImages,
    estimatedTokens := ceilDiv sectionHtml.length 4 +
      (sectionImages.map (fun i => i.estimatedTokens)).sum,
    priority := chunkPriorityFor sectionImages sty,
    preserveOrder := sty == .header || sty == .footer }

/-- Does a located element get claimed by this section pass?  (Sections whose
serialized markup is shorter than 50 characters are skipped as noise.) -/
def sectionMatchCondition (sel : List CSel) (p : List HNode × HNode) : Bool :=
  matchesAny p.1 p.2 sel && decide ((render p.2).length ≥ 50)

/-- Elements claimed by one section pass, in document order.  An element
nested inside an earlier claimed one is still emitted (the source iterates the
snapshot collection; removal detaches but does not destroy). -/
def sectionMatches (doc : List HNode) (sel : List CSel) : List HNode :=
  ((collectList [] doc).filter (sectionMatchCondition sel)).map (fun p => p.2)

mutual

/-- Document after one section pass: every claimed element is removed with
its subtree. -/
def pruneNode (sel : List CSel) (ancs : List HNode) : HNode → List HNode
  | .text s => [.text s]
  | .elem t a cs =>
    let n := HNode.elem t a cs
    if matchesAny ancs n sel && decide ((render n).length ≥ 50) then []
    else [HNode.elem t a (pruneList sel (n :: ancs) cs)]

def pruneList (sel : List CSel) (ancs : List HNode) : List HNode → List HNode
  | [] => []
  | n :: ns => pruneNode sel ancs n ++ pruneList sel ancs ns

end

structure SectionPassState where
  doc : List HNode
  chunks : List ContentChunk
  nextId : Nat
deriving Repr

/-- One iteration of the section-type loop of chunkContent. -/
def runSectionPass (recs : List ImageInfo) (css js : String)
    (st : SectionPassState) (sty : SectionType) : SectionPassState :=
  let sel := sectionSelector sty
  let matched := sectionMatches st.doc sel
  let newChunks := matched.enum.map (fun pr =>
    buildSectionChunk recs css js sty (st.nextId + pr.1) pr.2)
  { doc := pruneList sel [] st.doc,
    chunks := st.chunks ++ newChunks,
    nextId := st.nextId + matched.length }

/-- The fixed priority order of the section-type loop. -/
def sectionTypesOrder : List SectionType :=
  [.header, .nav, .hero, .main, .product, .gallery, .aside, .footer]

/-- All eight section passes, starting from chunk id 1. -/
def extractAllSections (doc : List HNode) (recs : List ImageInfo)
    (css js : String) : SectionPassState :=
  sectionTypesOrder.foldl (runSectionPass recs css js) ⟨doc, [], 1⟩

/-- The trailing mixed chunk over the remaining markup. -/
def mixedChunkFor (analysis : ImageAnalysis) (rem : List HNode)
    (css js : String) (cid : Nat) : ContentChunk :=
  let remainingHtml := renderList rem
  let remainingImages := analysis.decorativeImages.filter (fun i =>
    strContains remainingHtml i.src)
  { id := "chunk-" ++ toString cid,
    type := .mixed,
    html := rem,
    css := css,
    javascript := js,
    images := remainingImages,
    estimatedTokens := ceilDiv remainingHtml.length 4 +
      (remainingImages.map (fun i => i.estimatedTokens)).sum,
    priority := .low,
    preserveOrder := false }

def priorityOrder : Priority → Nat
  | .critical => 0
  | .high => 1
  | .medium => 2
  | .low => 3

/-- The comparator of sortChunksByPriority. -/
def compareChunks (a b : ContentChunk) : Int :=
  let d : Int := (priorityOrder a.priority : Int) - (priorityOrder b.priority : Int)
  if d ≠ 0 then d
  else if a.type == .header then -1
  else if b.type == .header then 1
  else if a.type == .footer then 1
  else if b.type == .footer then -1
  else 0

/-- Stable insertion: the new element goes after every element it does not
compare strictly below (the stability contract of Array.prototype.sort). -/
def insertChunk (x : ContentChunk) : List ContentChunk → List ContentChunk
  | [] => [x]
  | y :: l => if compareChunks x y < 0 then x :: y :: l else y :: insertChunk x l

/-- sortChunksByPriority, modelled as a stable insertion sort with the
source's comparator. -/
def sortChunksByPriority (chunks : List ContentChunk) : List ContentChunk :=
  chunks.foldl (fun acc c => insertChunk c acc) []

/-- The chunk list built by chunkContent before the final priority sort:
the section chunks in emission order, plus the trailing mixed chunk when the
trimmed leftover exceeds 100 characters. -/
def chunksBeforeSort (doc : List HNode) (css js : String) : List ContentChunk :=
  let imageAnalysis := analyzeImages doc
  let st := extractAllSections doc (allRecords imageAnalysis) css js
  if (strTrim (renderList st.doc)).length > 100 then
    st.chunks ++ [mixedChunkFor imageAnalysis st.doc css js st.nextId]
  else st.chunks

/-- chunkContent. -/
def chunkContent (doc : List HNode) (css js : String) : ChunkingResult :=
  let imageAnalysis := analyzeImages doc
  let originalSize := (renderList doc).length + css.length + js.length
  let chunksAll := chunksBeforeSort doc css js
  let optimizedSize := (chunksAll.map (fun c =>
    (renderList c.html).length + c.css.length + c.javascript.length)).sum
  let totalTokens := (chunksAll.map (fun c => c.estimatedTokens)).sum
  { chunks := sortChunksByPriority chunksAll,
    totalEstimatedTokens := totalTokens,
    imageAnalysis := imageAnalysis,
    metadata := { originalSize := originalSize, optimizedSize := optimizedSize,
                  compressionRatio := if originalSize > 0 then
                      (optimizedSize : ℚ) / (originalSize : ℚ)
                    else 1 } }

/-- estimateTokens. -/
def estimateTokens (content : String) : Nat := ceilDiv content.length 4

/-- validateChunkSizes. -/
def validateChunkSizes (chunks : List ContentChunk) (maxTokensPerChunk : Nat) : Bool :=
  chunks.all (fun c => c.estimatedTokens ≤ maxTokensPerChunk)

/-- Document produced by `cheerio.load` of a single element: the element
wrapped in the html/head/body shell. -/
def loadedDocNodes (n : HNode) : List HNode :=
  [HNode.elem "html" [] [HNode.elem "head" [] [], HNode.elem "body" [] [n]]]

/-- The `$('section, article, div')` collection inside a chunk's markup. -/
def subSectionsOf (chunkHtml : List HNode) : List HNode :=
  ((collectList [] chunkHtml).map (fun p => p.2)).filter (fun m =>
    m.isTag "section" || m.isTag "article" || m.isTag "div")

/-- The inner loop of splitOversizedChunks: sub-sections that fit the ceiling
become sub-chunks (the sub id advances only on emission); oversized
sub-sections are passed over. -/
def splitChunkLoop (chunk : ContentChunk) (maxT : Nat) (subChunkId : Nat) :
    List HNode → List ContentChunk
  | [] => []
  | sub :: rest =>
    let subDoc := loadedDocNodes sub
    let subHtml := renderList subDoc
    let subTokens := estimateTokens subHtml
    if subTokens ≤ maxT then
      { chunk with
        id := chunk.id ++ "-sub-" ++ toString subChunkId,
        html := subDoc,
        estimatedTokens := subTokens,
        images := chunk.images.filter (fun i => strContains subHtml i.src) }
        :: splitChunkLoop chunk maxT (subChunkId + 1) rest
    else splitChunkLoop chunk maxT subChunkId rest

/-- Handling of one chunk by splitOversizedChunks. -/
def splitOne (maxTokensPerChunk : Nat) (chunk : ContentChunk) : List ContentChunk :=
  if chunk.estimatedTokens ≤ maxTokensPerChunk then [chunk]
  else
    let subSections := subSectionsOf chunk.html
    if subSections.length > 1 then
      splitChunkLoop chunk maxTokensPerChunk 1 subSections
    else [chunk]

/-- splitOversizedChunks. -/
def splitOversizedChunks (chunks : List ContentChunk) (maxTokensPerChunk : Nat) :
    List ContentChunk :=
  chunks.flatMap (splitOne maxTokensPerChunk)

end ContentChunker

/-! ## Token Bucket Rate Limiter (source: rateLimiter.ts)

Timestamps are integers (milliseconds); token counts are naturals.  The
methods read the clock once (`now`); the internal mutation they perform on
the usage history is the purge `cleanOldUsage`. -/

namespace TokenBucket

structure TokenBucketConfig where
  maxTokens : Nat
  refillRate : Nat
  windowSize : Nat
deriving Repr, DecidableEq

structure UsageRecord where
  timestamp : Int
  tokensUsed : Nat
deriving Repr, DecidableEq

abbrev UsageHistory := List UsageRecord

/-- cleanOldUsage: drop records at or before `now - windowSize`. -/
def cleanOldUsage (cfg : TokenBucketConfig) (now : Int) (h : UsageHistory) :
    UsageHistory :=
  h.filter (fun r => now - (cfg.windowSize : Int) < r.timestamp)

/-- getCurrentUsage: total tokens of the (already purged) history. -/
def getCurrentUsage (h : UsageHistory) : Nat :=
  (h.map (fun r => r.tokensUsed)).sum

/-- canProcess. -/
def canProcess (cfg : TokenBucketConfig) (now : Int) (h : UsageHistory)
    (tokenCount : Nat) : Bool :=
  getCurrentUsage (cleanOldUsage cfg now h) + tokenCount ≤ cfg.maxTokens

/-- consumeTokens: purge, then append a record stamped `now`. -/
def consumeTokens (cfg : TokenBucketConfig) (now : Int) (h : UsageHistory)
    (tokenCount : Nat) : UsageHistory :=
  cleanOldUsage cfg now h ++ [{ timestamp := now, tokensUsed := tokenCount }]

/-- getAvailableTokens (Math.max(0, ...) is the truncated subtraction). -/
def getAvailableTokens (cfg : TokenBucketConfig) (now : Int) (h : UsageHistory) :
    Nat :=
  cfg.maxTokens - getCurrentUsage (cleanOldUsage cfg now h)

/-- The oldest-first walk of waitTimeForTokens: accumulate consumed tokens
until the running total reaches the excess, then wait until that record
leaves the window; full-window wait as fallback. -/
def findWait (cfg : TokenBucketConfig) (now : Int) (excess : Int) (cum : Nat) :
    UsageHistory → Int
  | [] => (cfg.windowSize : Int)
  | r :: rest =>
    if ((cum + r.tokensUsed : Nat) : Int) ≥ excess then
      max 0 (r.timestamp + (cfg.windowSize : Int) - now)
    else findWait cfg now excess (cum + r.tokensUsed) rest

/-- waitTimeForTokens. -/
def waitTimeForTokens (cfg : TokenBucketConfig) (now : Int) (h : UsageHistory)
    (tokenCount : Nat) : Int :=
  if canProcess cfg now h tokenCount then 0
  else
    let cleaned := cleanOldUsage cfg now h
    let currentUsage := getCurrentUsage cleaned
    let excess : Int := ((currentUsage + tokenCount : Nat) : Int) - (cfg.maxTokens : Int)
    findWait cfg now excess 0 cleaned

end TokenBucket

/-! ## RateLimiterManager -/

namespace RateLimiterManager

open TokenBucket

/-- The three buckets configured by the constructor. -/
def gpt5Config : TokenBucketConfig := ⟨30000, 500, 60000⟩

def gpt4oConfig : TokenBucketConfig := ⟨800000, 13333, 60000⟩

def gpt4turboConfig : TokenBucketConfig := ⟨450000, 7500, 60000⟩

/-- Mutable state of the manager: one usage history per configured bucket. -/
structure ManagerState where
  gpt5 : UsageHistory
  gpt4o : UsageHistory
  gpt4turbo : UsageHistory
deriving Repr, DecidableEq

/-- The bucket looked up for a model name, when configured. -/
def bucketFor (s : ManagerState) (model : String) :
    Option (TokenBucketConfig × UsageHistory) :=
  if model == "gpt-5" then some (gpt5Config, s.gpt5)
  else if model == "gpt-4o" then some (gpt4oConfig, s.gpt4o)
  else if model == "gpt-4-turbo" then some (gpt4turboConfig, s.gpt4turbo)
  else none

/-- Manager canProcess: an unknown model is admitted. -/
def canProcess (s : ManagerState) (now : Int) (tokenCount : Nat)
    (model : String) : Bool :=
  match bucketFor s model with
  | none => true
  | some (cfg, h) => TokenBucket.canProcess cfg now h tokenCount

/-- Manager consumeTokens: an unknown model changes nothing. -/
def consumeTokens (s : ManagerState) (now : Int) (tokenCount : Nat)
    (model : String) : ManagerState :=
  if model == "gpt-5" then
    { s with gpt5 := TokenBucket.consumeTokens gpt5Config now s.gpt5 tokenCount }
  else if model == "gpt-4o" then
    { s with gpt4o := TokenBucket.consumeTokens gpt4oConfig now s.gpt4o tokenCount }
  else if model == "gpt-4-turbo" then
    { s with gpt4turbo := TokenBucket.consumeTokens gpt4turboConfig now s.gpt4turbo tokenCount }
  else s

/-- Manager getAvailableTokens; JS Infinity for an unknown model is the top
element. -/
def getAvailableTokens (s : ManagerState) (now : Int) (model : String) :
    WithTop Nat :=
  match bucketFor s model with
  | none => ⊤
  | some (cfg, h) => (TokenBucket.getAvailableTokens cfg now h : Nat)

/-- Manager waitTimeForTokens: 0 for an unknown model. -/
def waitTimeForTokens (s : ManagerState) (now : Int) (tokenCount : Nat)
    (model : String) : Int :=
  match bucketFor s model with
  | none => 0
  | some (cfg, h) => TokenBucket.waitTimeForTokens cfg now h tokenCount

end RateLimiterManager

/-! ## Model Router (source: modelRouter.ts) -/

namespace ModelRouter

open ContentChunker

inductive GPTModel where
  | gpt5
  | gpt4o
  | gpt4turbo
  | gpt4
deriving Repr, DecidableEq, Inhabited

def modelName : GPTModel → String
  | .gpt5 => "gpt-5"
  | .gpt4o => "gpt-4o"
  | .gpt4turbo => "gpt-4-turbo"
  | .gpt4 => "gpt-4"

structure RoutingStrategy where
  name : String
  description : String
  gpt5Budget : Nat
  gpt4oBudget : Nat
  bufferTokens : Nat
deriving Repr, DecidableEq

def getDefaultStrategy : RoutingStrategy :=
  { name := "Image-Preserving Hybrid",
    description := "GPT-5 for critical images, GPT-4o for text content",
    gpt5Budget := 20000,
    gpt4oBudget := 10000,
    bufferTokens := 3000 }

structure ModelSelection where
  model : GPTModel
  reasoning : String
  estimatedTokens : Nat
  canProcess : Bool
  waitTime : Int
deriving Repr, DecidableEq

/-- Chunk analysis for routing.  The source's float `imageTokenRatio`
(image tokens / chunk tokens) is carried as its numerator
`imageTokensSum`; the derived comparisons are done by cross multiplication,
which agrees with the JS float comparisons including the division-by-zero
cases (Infinity and NaN both fail `< 0.3`, Infinity passes `> 0.7`). -/
structure ChunkRoutingAnalysis where
  imageCount : Nat
  hasCriticalImages : Bool
  hasProductImages : Bool
  hasHeroImages : Bool
  imageTokensSum : Nat
  isTextHeavy : Bool
  isImageHeavy : Bool
  chunkType : SectionType
  priority : Priority
deriving Repr, DecidableEq

/-- analyzeChunkForRouting. -/
def analyzeChunkForRouting (chunk : ContentChunk) : ChunkRoutingAnalysis :=
  let s := (chunk.images.map (fun i => i.estimatedTokens)).sum
  { imageCount := chunk.images.length,
    hasCriticalImages := chunk.images.any (fun i => i.importance == .critical),
    hasProductImages := chunk.images.any (fun i => i.importance == .product),
    hasHeroImages := chunk.images.any (fun i => i.importance == .hero),
    imageTokensSum := s,
    isTextHeavy := decide (10 * s < 3 * chunk.estimatedTokens),
    isImageHeavy := decide (10 * s > 7 * chunk.estimatedTokens),
    chunkType := chunk.type,
    priority := chunk.priority }

/-- selectOptimalModel. -/
def selectOptimalModel (a : ChunkRoutingAnalysis) : GPTModel :=
  if a.hasCriticalImages || a.hasProductImages then .gpt5
  else if a.hasHeroImages || a.priority == .high then .gpt5
  else if a.isImageHeavy && decide (a.imageCount > 2) then .gpt5
  else if a.isTextHeavy || a.chunkType == .footer || a.chunkType == .nav then .gpt4o
  else .gpt4o

/-- Math.round(imageTokenRatio * 100) rendered for the reasoning string
(ratio = s / e). -/
def ratioPercent (s e : Nat) : String :=
  if e = 0 then "Infinity" else toString ((200 * s + e) / (2 * e))

/-- Math.round((1 - imageTokenRatio) * 100); only rendered when the chunk is
text-heavy, which forces s < e. -/
def textPercent (s e : Nat) : String :=
  if e = 0 then "NaN" else toString ((200 * (e - s) + e) / (2 * e))

/-- buildRoutingReasoning. -/
def buildRoutingReasoning (chunk : ContentChunk) (a : ChunkRoutingAnalysis)
    (model : GPTModel) : String :=
  let reasons :=
    (if a.hasCriticalImages then ["contains critical images requiring preservation"] else []) ++
    (if a.hasProductImages then ["contains product images essential for functionality"] else []) ++
    (if a.hasHeroImages then ["contains hero/banner images"] else []) ++
    (if a.isImageHeavy then
      ["image-heavy content (" ++ ratioPercent a.imageTokensSum chunk.estimatedTokens
        ++ "% image tokens)"] else []) ++
    (if a.isTextHeavy then
      ["text-heavy content (" ++ textPercent a.imageTokensSum chunk.estimatedTokens
        ++ "% text tokens)"] else []) ++
    (if chunk.priority == .critical then ["marked as critical priority"] else [])
  "Using " ++ modelName model ++ " - " ++
    (if reasons.isEmpty then "default routing" else String.intercalate ", " reasons)

/-- routeContentChunk (the limiter singleton is passed as explicit state plus
clock). -/
def routeContentChunk (lim : RateLimiterManager.ManagerState) (now : Int)
    (chunk : ContentChunk) : ModelSelection :=
  let routing := analyzeChunkForRouting chunk
  let model := selectOptimalModel routing
  let canP := RateLimiterManager.canProcess lim now chunk.estimatedTokens (modelName model)
  let waitTime := if canP then 0
    else RateLimiterManager.waitTimeForTokens lim now chunk.estimatedTokens (modelName model)
  { model := model,
    reasoning := buildRoutingReasoning chunk routing model,
    estimatedTokens := chunk.estimatedTokens,
    canProcess := canP,
    waitTime := waitTime }

/-- getNumericPriority. -/
def getNumericPriority (chunk : ContentChunk) : Nat :=
  ContentChunker.priorityOrder chunk.priority

/-- Stable sort by numeric priority ([...chunks].sort(a - b)). -/
def insertByPriority (x : ContentChunk) : List ContentChunk → List ContentChunk
  | [] => [x]
  | y :: l =>
    if getNumericPriority x < getNumericPriority y then x :: y :: l
    else y :: insertByPriority x l

def sortByNumericPriority (chunks : List ContentChunk) : List ContentChunk :=
  chunks.foldl (fun acc c => insertByPriority c acc) []

/-- Model choice and updated (gpt5, gpt4o) token tallies for one chunk of the
routeMultipleChunks loop. -/
def routeStep (strat : RoutingStrategy) (routing : ChunkRoutingAnalysis)
    (est gpt5Used gpt4oUsed : Nat) : GPTModel × Nat × Nat :=
  if routing.hasCriticalImages || routing.hasProductImages then
    if gpt5Used + est ≤ strat.gpt5Budget then (.gpt5, gpt5Used + est, gpt4oUsed)
    else
      -- GPT-5 budget exceeded, but images are critical: GPT-5 anyway.
      (.gpt5, gpt5Used + est, gpt4oUsed)
  else if routing.hasHeroImages && decide (gpt5Used + est ≤ strat.gpt5Budget) then
    (.gpt5, gpt5Used + est, gpt4oUsed)
  else if gpt4oUsed + est ≤ strat.gpt4oBudget then
    (.gpt4o, gpt5Used, gpt4oUsed + est)
  else if routing.imageCount > 0 then (.gpt5, gpt5Used + est, gpt4oUsed)
  else (.gpt4o, gpt5Used, gpt4oUsed + est)

/-- The loop of routeMultipleChunks over the priority-sorted chunks.  The
Map<chunk, selection> is modelled as the association list in processing
order. -/
def routeLoop (strat : RoutingStrategy) (lim : RateLimiterManager.ManagerState)
    (now : Int) (gpt5Used gpt4oUsed : Nat) :
    List ContentChunk → List (ContentChunk × ModelSelection)
  | [] => []
  | chunk :: rest =>
    let routing := analyzeChunkForRouting chunk
    let pick := routeStep strat routing chunk.estimatedTokens gpt5Used gpt4oUsed
    let selectedModel := pick.1
    let canP := RateLimiterManager.canProcess lim now chunk.estimatedTokens
      (modelName selectedModel)
    let waitTime := if canP then 0
      else RateLimiterManager.waitTimeForTokens lim now chunk.estimatedTokens
        (modelName selectedModel)
    (chunk,
      { model := selectedModel,
        reasoning := buildRoutingReasoning chunk routing selectedModel,
        estimatedTokens := chunk.estimatedTokens,
        canProcess := canP,
        waitTime := waitTime }) :: routeLoop strat lim now pick.2.1 pick.2.2 rest

/-- routeMultipleChunks. -/
def routeMultipleChunks (strat : RoutingStrategy)
    (lim : RateLimiterManager.ManagerState) (now : Int)
    (chunks : List ContentChunk) : List (ContentChunk × ModelSelection) :=
  routeLoop strat lim now 0 0 (sortByNumericPriority chunks)

end ModelRouter

/-! ## Content Optimizer (source: contentOptimizer.ts), the
removeIrrelevantContent cleanup with its image-restore safety net. -/

namespace ContentOptimizer

/-- The ANALYTICS_PATTERNS regexes are literal, case-insensitive substrings. -/
def ANALYTICS_PATTERNS : List String :=
  ["google-analytics.com", "googletagmanager.com", "gtag(", "ga(", "_gaq",
   "facebook.net", "fbevents", "twitter.com/i/adsct", "linkedin.com/px-api",
   "hotjar.", "crazyegg.", "optimizely.", "segment.", "mixpanel.",
   "intercom.", "zendesk.", "livechat", "hubspot"]

def IRRELEVANT_SELECTORS : List CSel :=
  [⟨none, [.tagSel "script", .attrSub "src" "analytics"]⟩,
   ⟨none, [.tagSel "script", .attrSub "src" "gtag"]⟩,
   ⟨none, [.tagSel "script", .attrSub "src" "facebook"]⟩,
   ⟨none, [.tagSel "script", .attrSub "src" "twitter"]⟩,
   ⟨none, [.tagSel "script", .attrSub "src" "linkedin"]⟩,
   ⟨none, [.tagSel "script", .attrSub "src" "hotjar"]⟩,
   ⟨none, [.tagSel "script", .attrSub "src" "optimizely"]⟩,
   ⟨none, [.tagSel "script", .attrSub "src" "segment"]⟩,
   ⟨none, [.tagSel "script", .attrSub "src" "mixpanel"]⟩,
   ⟨none, [.tagSel "script", .attrSub "src" "intercom"]⟩,
   ⟨none, [.tagSel "script", .attrSub "src" "zendesk"]⟩,
   ⟨none, [.tagSel "script", .attrSub "src" "livechat"]⟩,
   ⟨none, [.tagSel "script", .attrSub "src" "tawk.to"]⟩,
   ⟨none, [.clsSel "intercom-frame"]⟩,
   ⟨none, [.clsSel "zendesk-widget"]⟩,
   ⟨none, [.clsSel "livechat-widget"]⟩,
   ⟨none, [.attrSub "class" "cookie"]⟩,
   ⟨none, [.attrSub "id" "cookie"]⟩,
   ⟨none, [.attrSub "class" "gdpr"]⟩,
   ⟨none, [.attrSub "class" "consent"]⟩,
   ⟨none, [.clsSel "cookie-banner"]⟩,
   ⟨none, [.clsSel "privacy-banner"]⟩,
   ⟨none, [.tagSel "iframe", .attrSub "src" "facebook.com/plugins"]⟩,
   ⟨none, [.tagSel "iframe", .attrSub "src" "twitter.com/widgets"]⟩,
   ⟨none, [.tagSel "iframe", .attrSub "src" "linkedin.com/widgets"]⟩,
   ⟨none, [.clsSel "fb-like"]⟩,
   ⟨none, [.clsSel "twitter-tweet"]⟩,
   ⟨none, [.clsSel "linkedin-widget"]⟩,
   ⟨none, [.attrSub "class" "ad-"]⟩,
   ⟨none, [.attrSub "class" "ads-"]⟩,
   ⟨none, [.attrSub "id" "ad-"]⟩,
   ⟨none, [.attrSub "id" "ads-"]⟩,
   ⟨none, [.clsSel "advertisement"]⟩,
   ⟨none, [.clsSel "google-ads"]⟩,
   ⟨none, [.clsSel "adsense"]⟩]

mutual

/-- Remove every element (with its subtree, top-down) satisfying `p`. -/
def removeMatching (p : HNode → Bool) : HNode → List HNode
  | .text s => [.text s]
  | .elem t a cs =>
    if p (.elem t a cs) then []
    else [HNode.elem t a (removeMatchingList p cs)]

def removeMatchingList (p : HNode → Bool) : List HNode → List HNode
  | [] => []
  | n :: ns => removeMatching p n ++ removeMatchingList p ns

end

/-- Does the element have an img descendant (cheerio `:has(img)`)? -/
def hasImgDescendant (n : HNode) : Bool :=
  (descendantsOf [] n).any (fun p => p.2.isTag "img")

/-- Condition of the selector-removal pass:
`$(selector).not('img').not(':has(img)').remove()`. -/
def irrelevantCondition (n : HNode) : Bool :=
  matchesAny [] n IRRELEVANT_SELECTORS && !n.isTag "img" && !hasImgDescendant n

def analyticsHit (s : String) : Bool :=
  ANALYTICS_PATTERNS.any (fun p => strContains (strLower s) p)

/-- Condition of the analytics-script pass. -/
def analyticsScriptCondition (n : HNode) : Bool :=
  n.isTag "script" && (analyticsHit (n.attrOr "src") || analyticsHit (innerHtml n))

mutual

/-- Replace every svg whose markup exceeds 10000 characters with the
placeholder div. -/
def replaceSvgNode : HNode → HNode
  | .text s => .text s
  | .elem t a cs =>
    if t == "svg" && decide ((render (HNode.elem t a cs)).length > 10000) then
      HNode.elem "div" [("class", "svg-placeholder")]
        [HNode.text "[Large SVG removed for optimization]"]
    else HNode.elem t a (replaceSvgForest cs)

def replaceSvgForest : List HNode → List HNode
  | [] => []
  | n :: ns => replaceSvgNode n :: replaceSvgForest ns

end

def emptyExemptTags : List String :=
  ["img", "input", "br", "hr", "area", "base", "col", "embed", "source",
   "track", "wbr"]

/-- Does the element contain an img/input/br/hr descendant? -/
def hasKeepDescendant (n : HNode) : Bool :=
  (descendantsOf [] n).any (fun p =>
    p.2.isTag "img" || p.2.isTag "input" || p.2.isTag "br" || p.2.isTag "hr")

/-- Condition of the empty-element pass. -/
def emptyElemCondition (n : HNode) : Bool :=
  match n with
  | .text _ => false
  | .elem t _ _ =>
    !(emptyExemptTags.contains t) && strTrim (textContent n) == "" &&
      !hasKeepDescendant n

/-- All img elements of the document (the pre-removal snapshot). -/
def allImgNodes (doc : List HNode) : List HNode :=
  ((collectList [] doc).map (fun p => p.2)).filter (fun m => m.isTag "img")

/-- Non-empty img src values present in a document. -/
def imgSrcs (doc : List HNode) : List String :=
  (allImgNodes doc).filterMap (fun m =>
    let s := m.attrOr "src"
    if s == "" then none else some s)

/-- An img re-appended from its captured markup string: same tag/attributes,
no children. -/
def imgClone : HNode → HNode
  | .elem t a _ => .elem t a []
  | .text s => .text s

/-- The four destructive passes of removeIrrelevantContent, in source
order: irrelevant selectors, analytics scripts, oversized svgs, empty
elements. -/
def cleanupPasses (doc : List HNode) : List HNode :=
  let d1 := removeMatchingList irrelevantCondition doc
  let d2 := removeMatchingList analyticsScriptCondition d1
  let d3 := replaceSvgForest d2
  removeMatchingList emptyElemCondition d3

/-- The snapshot images whose src is missing after the cleanup passes. -/
def restoredImages (doc : List HNode) : List HNode :=
  let currentImages := imgSrcs (cleanupPasses doc)
  (allImgNodes doc).filter (fun m =>
    let s := m.attrOr "src"
    s ≠ "" && !currentImages.contains s)

/-- removeIrrelevantContent: snapshot all images; run the four cleanup
passes; re-append (at the end of the body) every image whose src is no
longer present. -/
def removeIrrelevantContent (doc : List HNode) : List HNode :=
  cleanupPasses doc ++ (restoredImages doc).map imgClone

end ContentOptimizer

/-! ## Shared list lemmas -/

theorem collectList_append (ancs : List HNode) (xs ys : List HNode) :
    collectList ancs (xs ++ ys) = collectList ancs xs ++ collectList ancs ys := by
  induction xs with
  | nil => simp [collectList]
  | cons n ns ih => simp [collectList, ih]

theorem mem_collectList_self (ancs : List HNode) (m : HNode)
    (he : m.isElem = true) :
    ∀ (l : List HNode), m ∈ l → (ancs, m) ∈ collectList ancs l := by
  intro l
  induction l with
  | nil => intro hm; cases hm
  | cons n ns ih =>
    intro hm
    rcases List.mem_cons.mp hm with hm | hm
    · subst hm
      cases m with
      | text s => simp [HNode.isElem] at he
      | elem t a cs => simp [collectList, collectNode]
    · simp only [collectList, List.mem_append]
      exact Or.inr (ih hm)

/-! ## C2, C3: token-bucket sliding window -/

/-- C2: canProcess admits exactly when the tokens recorded strictly inside
the window plus the request fit the quota, and a consumption stamped `t` has
no effect on any canProcess evaluated strictly after `t + windowSize`. -/
theorem tokenBucket_canProcess_spec (cfg : TokenBucket.TokenBucketConfig)
    (now : Int) (h : TokenBucket.UsageHistory) (tokens : Nat) :
    (TokenBucket.canProcess cfg now h tokens = true ↔
      ((h.filter (fun r => now - (cfg.windowSize : Int) < r.timestamp)).map
          (fun r => r.tokensUsed)).sum + tokens ≤ cfg.maxTokens)
    ∧ (∀ (t : Int) (k : Nat), t + (cfg.windowSize : Int) < now →
        TokenBucket.canProcess cfg now (TokenBucket.consumeTokens cfg t h k) tokens
          = TokenBucket.canProcess cfg now h tokens) := by
  constructor
  · simp [TokenBucket.canProcess, TokenBucket.cleanOldUsage,
      TokenBucket.getCurrentUsage]
  · intro t k hlt
    have hdrop : TokenBucket.cleanOldUsage cfg now
        (TokenBucket.consumeTokens cfg t h k) = TokenBucket.cleanOldUsage cfg now h := by
      unfold TokenBucket.consumeTokens TokenBucket.cleanOldUsage
      rw [List.filter_append]
      have hone : List.filter (fun r => decide (now - (cfg.windowSize : Int) < r.timestamp))
          [{ timestamp := t, tokensUsed := k : TokenBucket.UsageRecord }] = [] := by
        simp only [List.filter]
        have : ¬ (now - (cfg.windowSize : Int) < t) := by omega
        simp [this]
      rw [hone, List.append_nil, List.filter_filter]
      apply List.filter_congr
      intro r _
      by_cases hr : now - (cfg.windowSize : Int) < r.timestamp
      · have hr2 : t - (cfg.windowSize : Int) < r.timestamp := by omega
        simp [hr, hr2]
      · simp [hr]
    unfold TokenBucket.canProcess
    rw [hdrop]

/-- Witness for C2, the spec's example scenario: 900 tokens consumed at 0 do
not affect admission at 60001 with a 60000ms window. -/
theorem tokenBucket_canProcess_spec_witness :
    TokenBucket.canProcess ⟨1000, 500, 60000⟩ 60001
        (TokenBucket.consumeTokens ⟨1000, 500, 60000⟩ 0 [] 900) 200
      = TokenBucket.canProcess ⟨1000, 500, 60000⟩ 60001 [] 200 :=
  (tokenBucket_canProcess_spec ⟨1000, 500, 60000⟩ 60001 [] 200).2 0 900 (by decide)

theorem findWait_pos_le (cfg : TokenBucket.TokenBucketConfig) (now excess : Int)
    (hws : 0 < cfg.windowSize) :
    ∀ (l : TokenBucket.UsageHistory) (cum : Nat),
      (∀ r ∈ l, now - (cfg.windowSize : Int) < r.timestamp ∧ r.timestamp ≤ now) →
      0 < TokenBucket.findWait cfg now excess cum l ∧
        TokenBucket.findWait cfg now excess cum l ≤ (cfg.windowSize : Int) := by
  intro l
  induction l with
  | nil =>
    intro cum _
    unfold TokenBucket.findWait
    constructor
    · exact_mod_cast hws
    · exact le_refl _
  | cons r rest ih =>
    intro cum hall
    have hr := hall r (List.mem_cons_self r rest)
    unfold TokenBucket.findWait
    by_cases hc : ((cum + r.tokensUsed : Nat) : Int) ≥ excess
    · rw [if_pos hc]
      have hx : 0 < r.timestamp + (cfg.windowSize : Int) - now := by omega
      rw [max_eq_right hx.le]
      exact ⟨hx, by omega⟩
    · rw [if_neg hc]
      exact ih (cum + r.tokensUsed) (fun q hq => hall q (List.mem_cons_of_mem r hq))

/-- C3: waitTimeForTokens is 0 exactly when canProcess is true; otherwise it
is strictly positive and at most windowSize (for histories stamped in the
past and a positive window). -/
theorem tokenBucket_waitTime_spec (cfg : TokenBucket.TokenBucketConfig)
    (now : Int) (h : TokenBucket.UsageHistory) (tokens : Nat)
    (hws : 0 < cfg.windowSize) (hpast : ∀ r ∈ h, r.timestamp ≤ now) :
    (TokenBucket.waitTimeForTokens cfg now h tokens = 0 ↔
      TokenBucket.canProcess cfg now h tokens = true)
    ∧ (TokenBucket.canProcess cfg now h tokens = false →
        0 < TokenBucket.waitTimeForTokens cfg now h tokens ∧
          TokenBucket.waitTimeForTokens cfg now h tokens ≤ (cfg.windowSize : Int)) := by
  by_cases hcan : TokenBucket.canProcess cfg now h tokens = true
  · constructor
    · simp [TokenBucket.waitTimeForTokens, hcan]
    · intro hfalse
      rw [hcan] at hfalse
      cases hfalse
  · have hcl : ∀ r ∈ TokenBucket.cleanOldUsage cfg now h,
        now - (cfg.windowSize : Int) < r.timestamp ∧ r.timestamp ≤ now := by
      intro r hr
      unfold TokenBucket.cleanOldUsage at hr
      rw [List.mem_filter] at hr
      exact ⟨by simpa using hr.2, hpast r hr.1⟩
    have hwait : TokenBucket.waitTimeForTokens cfg now h tokens =
        TokenBucket.findWait cfg now
          (((TokenBucket.getCurrentUsage (TokenBucket.cleanOldUsage cfg now h)
              + tokens : Nat) : Int) - (cfg.maxTokens : Int)) 0
          (TokenBucket.cleanOldUsage cfg now h) := by
      unfold TokenBucket.waitTimeForTokens
      rw [if_neg hcan]
    have hb := findWait_pos_le cfg now
      (((TokenBucket.getCurrentUsage (TokenBucket.cleanOldUsage cfg now h)
          + tokens : Nat) : Int) - (cfg.maxTokens : Int)) hws
      (TokenBucket.cleanOldUsage cfg now h) 0 hcl
    constructor
    · constructor
      · intro h0
        rw [hwait] at h0
        omega
      · intro hc
        exact absurd hc hcan
    · intro _
      rw [hwait]
      exact hb

/-- Witness for C3 at the spec's example state: 900 tokens consumed at time
0, a request for 200 at time 30000 against a 1000-token 60000ms bucket. -/
theorem tokenBucket_waitTime_spec_witness :
    (TokenBucket.waitTimeForTokens ⟨1000, 500, 60000⟩ 30000 [⟨0, 900⟩] 200 = 0 ↔
      TokenBucket.canProcess ⟨1000, 500, 60000⟩ 30000 [⟨0, 900⟩] 200 = true)
    ∧ (TokenBucket.canProcess ⟨1000, 500, 60000⟩ 30000 [⟨0, 900⟩] 200 = false →
        0 < TokenBucket.waitTimeForTokens ⟨1000, 500, 60000⟩ 30000 [⟨0, 900⟩] 200 ∧
          TokenBucket.waitTimeForTokens ⟨1000, 500, 60000⟩ 30000 [⟨0, 900⟩] 200 ≤
            ((60000 : Nat) : Int)) :=
  tokenBucket_waitTime_spec ⟨1000, 500, 60000⟩ 30000 [⟨0, 900⟩] 200 (by decide)
    (by decide)

/-! ## C9: unknown models bypass the limiter -/

/-- C9: for a model with no configured bucket, canProcess admits, the wait is
0, availability is unbounded, and consumption leaves the state unchanged. -/
theorem manager_unknown_model (s : RateLimiterManager.ManagerState) (now : Int)
    (tokens : Nat) (model : String) (h5 : model ≠ "gpt-5")
    (h4 : model ≠ "gpt-4o") (ht : model ≠ "gpt-4-turbo") :
    RateLimiterManager.canProcess s now tokens model = true
    ∧ RateLimiterManager.waitTimeForTokens s now tokens model = 0
    ∧ RateLimiterManager.getAvailableTokens s now model = ⊤
    ∧ RateLimiterManager.consumeTokens s now tokens model = s := by
  have b5 : (model == "gpt-5") = false := by simpa using h5
  have b4 : (model == "gpt-4o") = false := by simpa using h4
  have bt : (model == "gpt-4-turbo") = false := by simpa using ht
  refine ⟨?_, ?_, ?_, ?_⟩ <;>
    simp [RateLimiterManager.canProcess, RateLimiterManager.waitTimeForTokens,
      RateLimiterManager.getAvailableTokens, RateLimiterManager.consumeTokens,
      RateLimiterManager.bucketFor, b5, b4, bt]

/-- Witness for C9 with a non-empty gpt-5 history and the unknown model
name "claude-3-opus". -/
theorem manager_unknown_model_witness :
    RateLimiterManager.canProcess ⟨[⟨0, 29999⟩], [], []⟩ 5 123 "claude-3-opus" = true
    ∧ RateLimiterManager.waitTimeForTokens ⟨[⟨0, 29999⟩], [], []⟩ 5 123 "claude-3-opus" = 0
    ∧ RateLimiterManager.getAvailableTokens ⟨[⟨0, 29999⟩], [], []⟩ 5 "claude-3-opus" = ⊤
    ∧ RateLimiterManager.consumeTokens ⟨[⟨0, 29999⟩], [], []⟩ 5 123 "claude-3-opus"
        = ⟨[⟨0, 29999⟩], [], []⟩ :=
  manager_unknown_model ⟨[⟨0, 29999⟩], [], []⟩ 5 123 "claude-3-opus" (by decide)
    (by decide) (by decide)

/-! ## C4: critical/product images force the high-capability tier -/

theorem list_any_or {α : Type} (l : List α) (p q : α → Bool) :
    (l.any fun a => p a || q a) = (l.any p || l.any q) := by
  induction l with
  | nil => rfl
  | cons a t ih =>
    simp only [List.any_cons, ih]
    cases p a <;> cases q a <;> simp

theorem routeStep_critical (strat : ModelRouter.RoutingStrategy)
    (routing : ModelRouter.ChunkRoutingAnalysis) (est g5 g4o : Nat)
    (hcrit : (routing.hasCriticalImages || routing.hasProductImages) = true) :
    (ModelRouter.routeStep strat routing est g5 g4o).1 = .gpt5 := by
  simp [ModelRouter.routeStep, hcrit]

theorem selectOptimal_critical (a : ModelRouter.ChunkRoutingAnalysis)
    (h : (a.hasCriticalImages || a.hasProductImages) = true) :
    ModelRouter.selectOptimalModel a = .gpt5 := by
  simp [ModelRouter.selectOptimalModel, h]

theorem analyzeChunk_critFlag (c : ContentChunker.ContentChunk)
    (hcrit : (c.images.any fun i =>
        i.importance == .critical || i.importance == .product) = true) :
    ((ModelRouter.analyzeChunkForRouting c).hasCriticalImages ||
      (ModelRouter.analyzeChunkForRouting c).hasProductImages) = true := by
  simp only [ModelRouter.analyzeChunkForRouting]
  rw [← list_any_or]
  exact hcrit

theorem routeLoop_critical (strat : ModelRouter.RoutingStrategy)
    (lim : RateLimiterManager.ManagerState) (now : Int) :
    ∀ (l : List ContentChunker.ContentChunk) (g5 g4o : Nat)
      (c : ContentChunker.ContentChunk) (sel : ModelRouter.ModelSelection),
      (c, sel) ∈ ModelRouter.routeLoop strat lim now g5 g4o l →
      (c.images.any fun i =>
        i.importance == .critical || i.importance == .product) = true →
      sel.model = .gpt5 := by
  intro l
  induction l with
  | nil =>
    intro g5 g4o c sel hm
    simp [ModelRouter.routeLoop] at hm
  | cons chunk rest ih =>
    intro g5 g4o c sel hm hcrit
    simp only [ModelRouter.routeLoop] at hm
    rcases List.mem_cons.mp hm with he | hm2
    · rw [Prod.mk.injEq] at he
      obtain ⟨h1, h2⟩ := he
      subst h1
      rw [h2]
      exact routeStep_critical _ _ _ _ _ (analyzeChunk_critFlag c hcrit)
    · exact ih _ _ _ _ hm2 hcrit

/-- C4: any chunk whose images include a critical or product image is
assigned gpt-5, by routeMultipleChunks (whatever the running budget tallies)
and by routeContentChunk. -/
theorem router_critical_to_gpt5 :
    (∀ (strat : ModelRouter.RoutingStrategy)
      (lim : RateLimiterManager.ManagerState) (now : Int)
      (chunks : List ContentChunker.ContentChunk)
      (c : ContentChunker.ContentChunk) (sel : ModelRouter.ModelSelection),
      (c, sel) ∈ ModelRouter.routeMultipleChunks strat lim now chunks →
      (c.images.any fun i =>
        i.importance == .critical || i.importance == .product) = true →
      sel.model = .gpt5)
    ∧ (∀ (lim : RateLimiterManager.ManagerState) (now : Int)
        (c : ContentChunker.ContentChunk),
        (c.images.any fun i =>
          i.importance == .critical || i.importance == .product) = true →
        (ModelRouter.routeContentChunk lim now c).model = .gpt5) := by
  constructor
  · intro strat lim now chunks c sel hm hcrit
    exact routeLoop_critical strat lim now _ 0 0 c sel hm hcrit
  · intro lim now c hcrit
    exact selectOptimal_critical _ (analyzeChunk_critFlag c hcrit)

def chunkCritW : ContentChunker.ContentChunk :=
  { id := "w", type := .product, html := [], css := "", javascript := "",
    images := [{ src := "p.png", alt := "", estimatedTokens := 10,
                 importance := .product, context := "" }],
    estimatedTokens := 25000, priority := .critical, preserveOrder := false }

def mgrW : RateLimiterManager.ManagerState := ⟨[], [], []⟩

/-- Witness for C4: a 25000-token product-image chunk (over the 20000-token
gpt-5 allocation of the default strategy) still goes to gpt-5. -/
theorem router_critical_to_gpt5_witness :
    (ModelRouter.routeContentChunk mgrW 0 chunkCritW).model = .gpt5
    ∧ ((ModelRouter.routeMultipleChunks ModelRouter.getDefaultStrategy mgrW 0
          [chunkCritW]).map (fun p => p.2.model)) = [.gpt5] := by
  constructor
  · exact router_critical_to_gpt5.2 mgrW 0 chunkCritW (by decide)
  · decide

/-! ## C10: cleanup never loses an img src -/

theorem isElem_of_isTag (m : HNode) (t : String) (h : m.isTag t = true) :
    m.isElem = true := by
  cases m <;> simp [HNode.isTag, HNode.isElem] at *

theorem imgClone_attrOr (m : HNode) (k : String) :
    (ContentOptimizer.imgClone m).attrOr k = m.attrOr k := by
  cases m <;> rfl

theorem imgClone_isTag (m : HNode) (t : String) :
    (ContentOptimizer.imgClone m).isTag t = m.isTag t := by
  cases m <;> rfl

theorem allImgNodes_append (a b : List HNode) :
    ContentOptimizer.allImgNodes (a ++ b) =
      ContentOptimizer.allImgNodes a ++ ContentOptimizer.allImgNodes b := by
  unfold ContentOptimizer.allImgNodes
  rw [collectList_append, List.map_append, List.filter_append]

theorem imgSrcs_append (a b : List HNode) :
    ContentOptimizer.imgSrcs (a ++ b) =
      ContentOptimizer.imgSrcs a ++ ContentOptimizer.imgSrcs b := by
  unfold ContentOptimizer.imgSrcs
  rw [allImgNodes_append, List.filterMap_append]

theorem imgSrc_resolve (m : HNode) (s : String) :
    (if m.attrOr "src" == "" then none else some (m.attrOr "src")) = some s ↔
      (m.attrOr "src" = s ∧ s ≠ "") := by
  by_cases hc : m.attrOr "src" = ""
  · constructor
    · intro h
      rw [if_pos (by simp [hc])] at h
      cases h
    · intro h
      exact absurd (hc.symm.trans h.1).symm h.2
  · rw [if_neg (by simp [hc])]
    simp only [Option.some.injEq]
    constructor
    · intro h
      refine ⟨h, fun hs0 => hc ?_⟩
      rw [h, hs0]
    · intro h
      exact h.1

theorem mem_imgSrcs (doc : List HNode) (s : String) :
    s ∈ ContentOptimizer.imgSrcs doc ↔
      ∃ m ∈ ContentOptimizer.allImgNodes doc, m.attrOr "src" = s ∧ s ≠ "" := by
  unfold ContentOptimizer.imgSrcs
  rw [List.mem_filterMap]
  constructor
  · rintro ⟨m, hm, hf⟩
    exact ⟨m, hm, (imgSrc_resolve m s).mp hf⟩
  · rintro ⟨m, hm, hres⟩
    exact ⟨m, hm, (imgSrc_resolve m s).mpr hres⟩

theorem mem_allImgNodes_of_top (l : List HNode) (m : HNode) (hm : m ∈ l)
    (himg : m.isTag "img" = true) : m ∈ ContentOptimizer.allImgNodes l := by
  unfold ContentOptimizer.allImgNodes
  rw [List.mem_filter]
  refine ⟨?_, himg⟩
  rw [List.mem_map]
  exact ⟨([], m), mem_collectList_self [] m (isElem_of_isTag m "img" himg) l hm, rfl⟩

/-- C10: every non-empty img src present in the input document is still
present after removeIrrelevantContent; the restore pass re-appends anything
the cleanup passes dropped. -/
theorem removeIrrelevant_src_superset (doc : List HNode) (s : String)
    (hs : s ∈ ContentOptimizer.imgSrcs doc) :
    s ∈ ContentOptimizer.imgSrcs (ContentOptimizer.removeIrrelevantContent doc) := by
  unfold ContentOptimizer.removeIrrelevantContent
  rw [imgSrcs_append, List.mem_append]
  by_cases hcur : s ∈ ContentOptimizer.imgSrcs (ContentOptimizer.cleanupPasses doc)
  · exact Or.inl hcur
  · right
    obtain ⟨m, hm, hattr, hne⟩ := (mem_imgSrcs doc s).mp hs
    have himg : m.isTag "img" = true := by
      unfold ContentOptimizer.allImgNodes at hm
      exact (List.mem_filter.mp hm).2
    have hmr : m ∈ ContentOptimizer.restoredImages doc := by
      unfold ContentOptimizer.restoredImages
      rw [List.mem_filter]
      refine ⟨hm, ?_⟩
      have h1 : m.attrOr "src" ≠ "" := by
        rw [hattr]; exact hne
      have h2 : m.attrOr "src" ∉
          ContentOptimizer.imgSrcs (ContentOptimizer.cleanupPasses doc) := by
        rw [hattr]
        exact hcur
      simp [h1, h2]
    refine (mem_imgSrcs _ s).mpr ⟨ContentOptimizer.imgClone m, ?_, ?_, hne⟩
    · refine mem_allImgNodes_of_top _ _ ?_ ?_
      · rw [List.mem_map]
        exact ⟨m, hmr, rfl⟩
      · rw [imgClone_isTag]
        exact himg
    · rw [imgClone_attrOr]
      exact hattr

/-- Witness for C10: a document whose only image sits inside an oversized
svg (which the svg pass removes wholesale) still reports the src after the
restore pass. -/
theorem removeIrrelevant_src_superset_witness :
    "a.png" ∈ ContentOptimizer.imgSrcs (ContentOptimizer.removeIrrelevantContent
      [HNode.elem "div" [("class", "cookie-banner")] [HNode.text "we use cookies"],
       HNode.elem "img" [("src", "a.png")] []]) :=
  removeIrrelevant_src_superset
    [HNode.elem "div" [("class", "cookie-banner")] [HNode.text "we use cookies"],
     HNode.elem "img" [("src", "a.png")] []] "a.png" (by decide)

/-! ## C7: image-importance rule list -/

/-- Structural-context test, as the claim describes it: the element matches
the full selector, or the closest() probe on the selector's first token
succeeds. -/
def structuralContextHit (sels : List (CSel × SSel)) (ancs : List HNode)
    (img : HNode) : Bool :=
  sels.any (fun pr =>
    matchesC ancs img pr.1 || (closestMatching ancs img [⟨none, [pr.2]⟩]).isSome)

/-- The product/shop/catalog entries of CRITICAL_IMAGE_SELECTORS. -/
def productContextSelectors : List (CSel × SSel) :=
  [ (⟨some (.clsSel "product"), [.tagSel "img"]⟩, .clsSel "product"),
    (⟨none, [.clsSel "product-image"]⟩, .clsSel "product-image"),
    (⟨none, [.clsSel "product-photo"]⟩, .clsSel "product-photo"),
    (⟨some (.clsSel "product-gallery"), [.tagSel "img"]⟩, .clsSel "product-gallery"),
    (⟨some (.clsSel "shop"), [.tagSel "img"]⟩, .clsSel "shop"),
    (⟨some (.clsSel "catalog"), [.tagSel "img"]⟩, .clsSel "catalog"),
    (⟨none, [.clsSel "item-image"]⟩, .clsSel "item-image"),
    (⟨none, [.attrHas "data-product-image"]⟩, .attrHas "data-product-image") ]

/-- The hero/banner entries of CRITICAL_IMAGE_SELECTORS. -/
def heroContextSelectors : List (CSel × SSel) :=
  [ (⟨some (.clsSel "hero"), [.tagSel "img"]⟩, .clsSel "hero"),
    (⟨none, [.clsSel "hero-image"]⟩, .clsSel "hero-image"),
    (⟨some (.clsSel "banner"), [.tagSel "img"]⟩, .clsSel "banner"),
    (⟨none, [.clsSel "main-image"]⟩, .clsSel "main-image") ]

theorem criticalSelectors_split :
    ContentChunker.CRITICAL_IMAGE_SELECTORS =
      productContextSelectors ++ heroContextSelectors := rfl

/-- The claim's hero keywords (rule 4 as the claim words it). -/
def claimHeroKeywords : List String := ["hero", "banner", "featured"]

/-- Classification as claim C7 words it: rule 2 fires only on
product/shop/catalog structural contexts, rule 4 only on
hero/banner/featured keywords.  Spec-side definition for comparison with the
source's classifyImageImportance. -/
def classifyImageImportanceClaim (ancs : List HNode) (img : HNode)
    (context : String) (position : Nat) : ContentChunker.Importance :=
  let src := img.attrOr "src"
  let alt := img.attrOr "alt"
  let className := img.attrOr "class"
  if strLeads src "data:image/" && decide (src.length > 50000) then .critical
  else if structuralContextHit productContextSelectors ancs img then .critical
  else if ContentChunker.keywordHit alt className context
      ContentChunker.productKeywords then .product
  else if ContentChunker.keywordHit alt className context claimHeroKeywords then .hero
  else if decide (position < 3) && decide (src.length > 10000) then .hero
  else .decorative

/-- Classification as amended: rule 2 also fires on hero/banner structural
contexts (critical), and rule 4 uses the source's full keyword list
(hero, banner, main, featured, primary). -/
def classifyImageImportanceAmended (ancs : List HNode) (img : HNode)
    (context : String) (position : Nat) : ContentChunker.Importance :=
  let src := img.attrOr "src"
  let alt := img.attrOr "alt"
  let className := img.attrOr "class"
  if strLeads src "data:image/" && decide (src.length > 50000) then .critical
  else if structuralContextHit productContextSelectors ancs img ||
      structuralContextHit heroContextSelectors ancs img then .critical
  else if ContentChunker.keywordHit alt className context
      ContentChunker.productKeywords then .product
  else if ContentChunker.keywordHit alt className context
      ContentChunker.heroKeywords then .hero
  else if decide (position < 3) && decide (src.length > 10000) then .hero
  else .decorative

def heroImgW : HNode := HNode.elem "img" [("src", "http://a/b.png")] []

def heroDivW : HNode :=
  HNode.elem "div" [("class", "hero")]
    [HNode.elem "p" [] [HNode.text "Our hero section"], heroImgW]

def altMainImgW : HNode :=
  HNode.elem "img" [("src", "http://a/c.png"), ("alt", "main view of the building")] []

/-- Counterexample for C7: an image whose only signal is the hero structural
context (plus a hero keyword in its surrounding context) is classified
critical by the source but hero by the claim's rule list; an image whose alt
text contains only the keyword "main" is classified hero by the source but
decorative by the claim's rule list. -/
theorem classify_claim_counterexample :
    ContentChunker.classifyImageImportance [heroDivW] heroImgW
        (innerHtml heroDivW) 0 = .critical
    ∧ classifyImageImportanceClaim [heroDivW] heroImgW (innerHtml heroDivW) 0 = .hero
    ∧ ContentChunker.classifyImageImportance [] altMainImgW "" 0 = .hero
    ∧ classifyImageImportanceClaim [] altMainImgW "" 0 = .decorative := by
  decide

/-- C7 (amended): the source's classifier is exactly the amended rule list
(first match wins): large inline data payload, then product/shop/catalog or
hero/banner structural context, then product keywords, then
hero/banner/main/featured/primary keywords, then early-large position, else
decorative. -/
theorem classify_eq_amended (ancs : List HNode) (img : HNode) (context : String)
    (position : Nat) :
    ContentChunker.classifyImageImportance ancs img context position =
      classifyImageImportanceAmended ancs img context position := by
  have h : ContentChunker.isCriticalContext ancs img =
      (structuralContextHit productContextSelectors ancs img ||
        structuralContextHit heroContextSelectors ancs img) := by
    unfold ContentChunker.isCriticalContext structuralContextHit
    rw [criticalSelectors_split, List.any_append]
  unfold ContentChunker.classifyImageImportance classifyImageImportanceAmended
  rw [h]

/-! ## C8: oversized-chunk splitting -/

theorem splitChunkLoop_images (chunk : ContentChunker.ContentChunk) (maxT : Nat) :
    ∀ (l : List HNode) (sid : Nat) (d : ContentChunker.ContentChunk),
      d ∈ ContentChunker.splitChunkLoop chunk maxT sid l →
      ∀ i ∈ d.images, i ∈ chunk.images := by
  intro l
  induction l with
  | nil =>
    intro sid d hd
    simp [ContentChunker.splitChunkLoop] at hd
  | cons sub rest ih =>
    intro sid d hd i hi
    rw [ContentChunker.splitChunkLoop] at hd
    by_cases hfit : ContentChunker.estimateTokens
        (renderList (ContentChunker.loadedDocNodes sub)) ≤ maxT
    · rw [if_pos hfit] at hd
      rcases List.mem_cons.mp hd with he | hd2
      · subst he
        exact (List.mem_filter.mp hi).1
      · exact ih _ _ hd2 i hi
    · rw [if_neg hfit] at hd
      exact ih _ _ hd i hi

theorem splitOne_small (maxT : Nat) (c : ContentChunker.ContentChunk)
    (h : c.estimatedTokens ≤ maxT) : ContentChunker.splitOne maxT c = [c] := by
  simp [ContentChunker.splitOne, h]

theorem splitOne_unsplittable (maxT : Nat) (c : ContentChunker.ContentChunk)
    (h : maxT < c.estimatedTokens)
    (hsub : (ContentChunker.subSectionsOf c.html).length ≤ 1) :
    ContentChunker.splitOne maxT c = [c] := by
  unfold ContentChunker.splitOne
  rw [if_neg (by omega)]
  rw [if_neg (by omega)]

/-- C8 (amended): a chunk at or below the ceiling is returned unchanged; an
oversized chunk with at most one structural sub-section is returned unsplit;
every image of every emitted chunk comes from some input chunk (but images
of dropped oversized sub-sections are lost, see the counterexample). -/
theorem splitOversized_spec :
    (∀ (chunks : List ContentChunker.ContentChunk) (maxT : Nat)
      (c : ContentChunker.ContentChunk), c ∈ chunks → c.estimatedTokens ≤ maxT →
      c ∈ ContentChunker.splitOversizedChunks chunks maxT)
    ∧ (∀ (chunks : List ContentChunker.ContentChunk) (maxT : Nat)
        (c : ContentChunker.ContentChunk), c ∈ chunks → maxT < c.estimatedTokens →
        (ContentChunker.subSectionsOf c.html).length ≤ 1 →
        c ∈ ContentChunker.splitOversizedChunks chunks maxT)
    ∧ (∀ (chunks : List ContentChunker.ContentChunk) (maxT : Nat)
        (d : ContentChunker.ContentChunk),
        d ∈ ContentChunker.splitOversizedChunks chunks maxT →
        ∀ i ∈ d.images, ∃ c ∈ chunks, i ∈ c.images) := by
  refine ⟨?_, ?_, ?_⟩
  · intro chunks maxT c hc hle
    unfold ContentChunker.splitOversizedChunks
    rw [List.mem_flatMap]
    exact ⟨c, hc, by rw [splitOne_small maxT c hle]; exact List.mem_singleton.mpr rfl⟩
  · intro chunks maxT c hc hgt hsub
    unfold ContentChunker.splitOversizedChunks
    rw [List.mem_flatMap]
    refine ⟨c, hc, ?_⟩
    rw [splitOne_unsplittable maxT c hgt hsub]
    exact List.mem_singleton.mpr rfl
  · intro chunks maxT d hd i hi
    unfold ContentChunker.splitOversizedChunks at hd
    rw [List.mem_flatMap] at hd
    obtain ⟨c, hc, hdc⟩ := hd
    refine ⟨c, hc, ?_⟩
    unfold ContentChunker.splitOne at hdc
    by_cases hle : c.estimatedTokens ≤ maxT
    · rw [if_pos hle] at hdc
      rw [List.mem_singleton.mp hdc] at hi
      exact hi
    · rw [if_neg hle] at hdc
      by_cases hlen : (ContentChunker.subSectionsOf c.html).length > 1
      · rw [if_pos hlen] at hdc
        exact splitChunkLoop_images c maxT _ 1 d hdc i hi
      · rw [if_neg hlen] at hdc
        rw [List.mem_singleton.mp hdc] at hi
        exact hi

def splitDiv1W : HNode :=
  HNode.elem "div" []
    [HNode.text (String.mk (List.replicate 210 'x')),
     HNode.elem "img" [("src", "http://e/x.png")] []]

def splitDiv2W : HNode := HNode.elem "div" [] [HNode.text "hi"]

def imgXW : ContentChunker.ImageInfo :=
  { src := "http://e/x.png", alt := "", estimatedTokens := 9,
    importance := .decorative, context := "" }

def chunkOversizedW : ContentChunker.ContentChunk :=
  { id := "c", type := .main, html := [splitDiv1W, splitDiv2W], css := "",
    javascript := "", images := [imgXW], estimatedTokens := 600,
    priority := .medium, preserveOrder := false }

set_option maxRecDepth 40000 in
/-- Counterexample for C8: splitting an oversized chunk whose image sits in
a sub-section that itself exceeds the ceiling drops that sub-section, and
the image is attached to no output chunk. -/
theorem splitOversized_counterexample :
    ((ContentChunker.splitOversizedChunks [chunkOversizedW] 50).flatMap
        (fun c => c.images)) = []
    ∧ chunkOversizedW.images.length = 1
    ∧ 50 < chunkOversizedW.estimatedTokens
    ∧ (ContentChunker.splitOversizedChunks [chunkOversizedW] 50).length = 1 := by
  decide

def chunkSmallW : ContentChunker.ContentChunk :=
  { id := "s", type := .main, html := [], css := "", javascript := "",
    images := [], estimatedTokens := 10, priority := .medium,
    preserveOrder := false }

/-- Witness for C8: an in-budget chunk passes through unchanged. -/
theorem splitOversized_spec_witness :
    chunkSmallW ∈ ContentChunker.splitOversizedChunks [chunkSmallW] 1000 :=
  splitOversized_spec.1 [chunkSmallW] 1000 chunkSmallW (by decide) (by decide)

/-! ## Sorting lemmas shared by the chunker claims -/

theorem mem_insertChunk (x y : ContentChunker.ContentChunk) :
    ∀ l, y ∈ ContentChunker.insertChunk x l ↔ y = x ∨ y ∈ l := by
  intro l
  induction l with
  | nil => simp [ContentChunker.insertChunk]
  | cons z t ih =>
    rw [ContentChunker.insertChunk]
    by_cases h : ContentChunker.compareChunks x z < 0
    · rw [if_pos h]
      simp [List.mem_cons]
    · rw [if_neg h]
      simp only [List.mem_cons, ih]
      tauto

theorem mem_sortChunks_aux (y : ContentChunker.ContentChunk) :
    ∀ (l acc : List ContentChunker.ContentChunk),
      y ∈ List.foldl (fun acc c => ContentChunker.insertChunk c acc) acc l ↔
        y ∈ acc ∨ y ∈ l := by
  intro l
  induction l with
  | nil => intro acc; simp
  | cons c t ih =>
    intro acc
    rw [List.foldl_cons, ih, mem_insertChunk]
    simp [List.mem_cons]
    tauto

theorem mem_sortChunks (y : ContentChunker.ContentChunk)
    (l : List ContentChunker.ContentChunk) :
    y ∈ ContentChunker.sortChunksByPriority l ↔ y ∈ l := by
  unfold ContentChunker.sortChunksByPriority
  rw [mem_sortChunks_aux]
  simp

theorem countP_insertChunk (p : ContentChunker.ContentChunk → Bool)
    (x : ContentChunker.ContentChunk) :
    ∀ l, (ContentChunker.insertChunk x l).countP p = ((x :: l).countP p) := by
  intro l
  induction l with
  | nil => rfl
  | cons z t ih =>
    rw [ContentChunker.insertChunk]
    by_cases h : ContentChunker.compareChunks x z < 0
    · rw [if_pos h]
    · rw [if_neg h]
      simp only [List.countP_cons, ih]
      omega

theorem countP_sortChunks_aux (p : ContentChunker.ContentChunk → Bool) :
    ∀ (l acc : List ContentChunker.ContentChunk),
      (List.foldl (fun acc c => ContentChunker.insertChunk c acc) acc l).countP p =
        acc.countP p + l.countP p := by
  intro l
  induction l with
  | nil => intro acc; simp
  | cons c t ih =>
    intro acc
    rw [List.foldl_cons, ih, countP_insertChunk]
    simp only [List.countP_cons]
    omega

theorem countP_sortChunks (p : ContentChunker.ContentChunk → Bool)
    (l : List ContentChunker.ContentChunk) :
    (ContentChunker.sortChunksByPriority l).countP p = l.countP p := by
  unfold ContentChunker.sortChunksByPriority
  rw [countP_sortChunks_aux]
  simp

/-! ## C5: ordering of the returned chunk list -/

deriving instance Fintype for ContentChunker.Priority

deriving instance Fintype for ContentChunker.SectionType

/-- The order guaranteed between two chunks of the sorted output: weakly
increasing priority; inside one priority bucket no non-header precedes a
header and no footer precedes a non-footer. -/
def chunkLE (p q : ContentChunker.Priority × ContentChunker.SectionType) : Prop :=
  ContentChunker.priorityOrder p.1 ≤ ContentChunker.priorityOrder q.1 ∧
    (ContentChunker.priorityOrder p.1 = ContentChunker.priorityOrder q.1 →
      (q.2 = .header → p.2 = .header) ∧ (p.2 = .footer → q.2 = .footer))

instance chunkLEDec (p q : ContentChunker.Priority × ContentChunker.SectionType) :
    Decidable (chunkLE p q) := by
  unfold chunkLE
  infer_instance

/-- compareChunks seen on the (priority, type) pair alone. -/
def comparePT (p q : ContentChunker.Priority × ContentChunker.SectionType) : Int :=
  let d : Int := (ContentChunker.priorityOrder p.1 : Int) -
    (ContentChunker.priorityOrder q.1 : Int)
  if d ≠ 0 then d
  else if p.2 == .header then -1
  else if q.2 == .header then 1
  else if p.2 == .footer then 1
  else if q.2 == .footer then -1
  else 0

theorem compareChunks_eq (a b : ContentChunker.ContentChunk) :
    ContentChunker.compareChunks a b = comparePT (a.priority, a.type) (b.priority, b.type) := rfl

theorem comparePT_lt_le :
    ∀ p q, comparePT p q < 0 → chunkLE p q := by decide

theorem comparePT_ge_le :
    ∀ p q, ¬ comparePT p q < 0 → chunkLE q p := by decide

theorem chunkLE_trans :
    ∀ p q r, chunkLE p q → chunkLE q r → chunkLE p r := by decide

/-- chunkLE lifted to chunks. -/
def chunkOrderOK (a b : ContentChunker.ContentChunk) : Prop :=
  chunkLE (a.priority, a.type) (b.priority, b.type)

theorem pairwise_insertChunk (x : ContentChunker.ContentChunk) :
    ∀ l, l.Pairwise chunkOrderOK →
      (ContentChunker.insertChunk x l).Pairwise chunkOrderOK := by
  intro l
  induction l with
  | nil => intro _; simp [ContentChunker.insertChunk, chunkOrderOK]
  | cons y t ih =>
    intro hp
    rw [ContentChunker.insertChunk]
    rw [List.pairwise_cons] at hp
    by_cases hxy : ContentChunker.compareChunks x y < 0
    · rw [if_pos hxy]
      have hxyLE : chunkOrderOK x y :=
        comparePT_lt_le _ _ (compareChunks_eq x y ▸ hxy)
      rw [List.pairwise_cons]
      refine ⟨?_, List.pairwise_cons.mpr hp⟩
      intro z hz
      rcases List.mem_cons.mp hz with heq | hzt
      · rw [heq]
        exact hxyLE
      · exact chunkLE_trans _ _ _ hxyLE (hp.1 z hzt)
    · rw [if_neg hxy]
      rw [List.pairwise_cons]
      refine ⟨?_, ih hp.2⟩
      intro z hz
      rcases (mem_insertChunk x z t).mp hz with heq | hzt
      · rw [heq]
        exact comparePT_ge_le _ _ (compareChunks_eq x y ▸ hxy)
      · exact hp.1 z hzt

theorem pairwise_sortChunks_aux :
    ∀ (l acc : List ContentChunker.ContentChunk), acc.Pairwise chunkOrderOK →
      (List.foldl (fun acc c => ContentChunker.insertChunk c acc) acc l).Pairwise
        chunkOrderOK := by
  intro l
  induction l with
  | nil => intro acc h; exact h
  | cons c t ih =>
    intro acc h
    rw [List.foldl_cons]
    exact ih _ (pairwise_insertChunk c acc h)

theorem pairwise_sortChunks (l : List ContentChunker.ContentChunk) :
    (ContentChunker.sortChunksByPriority l).Pairwise chunkOrderOK :=
  pairwise_sortChunks_aux l [] List.Pairwise.nil

set_option maxHeartbeats 1000000 in
/-- C5 (amended): the chunk list returned by chunkContent is weakly sorted
by priority, and within each priority bucket every header chunk precedes
every non-header chunk and every footer chunk follows every non-footer
chunk.  A header or footer chunk is not pulled across priority buckets. -/
theorem chunkContent_chunks_sorted (doc : List HNode) (css js : String) :
    ((ContentChunker.chunkContent doc css js).chunks).Pairwise chunkOrderOK := by
  have h : (ContentChunker.chunkContent doc css js).chunks =
      ContentChunker.sortChunksByPriority (ContentChunker.chunksBeforeSort doc css js) := rfl
  rw [h]
  exact pairwise_sortChunks _

def hdrElW : HNode :=
  HNode.elem "header" []
    [HNode.text "Welcome to our wonderful store front page, greetings."]

def prodElW : HNode :=
  HNode.elem "div" [("class", "product")]
    [HNode.text "Our best items are listed right here on this page.",
     HNode.elem "img" [("src", "http://shop.example/i1.png")] []]

def docC5 : List HNode := [hdrElW, prodElW]

set_option maxRecDepth 40000 in
/-- Counterexample for C5: a document with an imageless header (medium
priority) and a product section holding a critical image (critical
priority): the sorted output places the product chunk first and the header
chunk second, so the header is not first overall. -/
theorem chunk_order_counterexample :
    ((ContentChunker.chunkContent docC5 "" "").chunks.map
        (fun c => (c.type, c.priority)))
      = [(.product, .critical), (.header, .medium)] := by
  decide

/-! ## C1, C6: where chunk images and the mixed chunk come from -/

theorem runSectionPass_chunks_mem (recs : List ContentChunker.ImageInfo)
    (css js : String) (st : ContentChunker.SectionPassState)
    (sty : ContentChunker.SectionType) (c : ContentChunker.ContentChunk)
    (hc : c ∈ (ContentChunker.runSectionPass recs css js st sty).chunks) :
    c ∈ st.chunks ∨
      ∃ cid sec, c = ContentChunker.buildSectionChunk recs css js sty cid sec := by
  simp only [ContentChunker.runSectionPass] at hc
  rcases List.mem_append.mp hc with h1 | h2
  · exact Or.inl h1
  · rw [List.mem_map] at h2
    obtain ⟨pr, _, heq⟩ := h2
    exact Or.inr ⟨st.nextId + pr.1, pr.2, heq.symm⟩

theorem extractAll_chunks_mem (doc : List HNode)
    (recs : List ContentChunker.ImageInfo) (css js : String)
    (c : ContentChunker.ContentChunk)
    (hc : c ∈ (ContentChunker.extractAllSections doc recs css js).chunks) :
    ∃ sty ∈ ContentChunker.sectionTypesOrder,
      ∃ cid sec, c = ContentChunker.buildSectionChunk recs css js sty cid sec := by
  have haux : ∀ (tys : List ContentChunker.SectionType)
      (st : ContentChunker.SectionPassState),
      c ∈ (tys.foldl (ContentChunker.runSectionPass recs css js) st).chunks →
      c ∈ st.chunks ∨ ∃ sty ∈ tys,
        ∃ cid sec, c = ContentChunker.buildSectionChunk recs css js sty cid sec := by
    intro tys
    induction tys with
    | nil => intro st h; exact Or.inl h
    | cons ty rest ih =>
      intro st h
      rw [List.foldl_cons] at h
      rcases ih _ h with h1 | ⟨sty, hsty, cid, sec, heq⟩
      · rcases runSectionPass_chunks_mem recs css js st ty c h1 with ha | ⟨cid, sec, heq⟩
        · exact Or.inl ha
        · exact Or.inr ⟨ty, List.mem_cons_self ty rest, cid, sec, heq⟩
      · exact Or.inr ⟨sty, List.mem_cons_of_mem ty hsty, cid, sec, heq⟩
  unfold ContentChunker.extractAllSections at hc
  rcases haux ContentChunker.sectionTypesOrder ⟨doc, [], 1⟩ hc with h1 | h2
  · simp at h1
  · exact h2

theorem sectionImages_sub (recs : List ContentChunker.ImageInfo) (sec : HNode)
    (i : ContentChunker.ImageInfo)
    (hi : i ∈ ContentChunker.sectionImagesOf recs sec) : i ∈ recs := by
  unfold ContentChunker.sectionImagesOf at hi
  rw [List.mem_filterMap] at hi
  obtain ⟨m, _, hsome⟩ := hi
  by_cases hs : m.attrOr "src" == ""
  · simp [hs] at hsome
  · simp only [hs, Bool.false_eq_true, if_false] at hsome
    exact List.mem_of_find?_eq_some hsome

theorem mixed_images_sub (A : ContentChunker.ImageAnalysis) (rem : List HNode)
    (css js : String) (cid : Nat) (i : ContentChunker.ImageInfo)
    (hi : i ∈ (ContentChunker.mixedChunkFor A rem css js cid).images) :
    i ∈ ContentChunker.allRecords A := by
  simp only [ContentChunker.mixedChunkFor] at hi
  have hdec : i ∈ A.decorativeImages := (List.mem_filter.mp hi).1
  unfold ContentChunker.allRecords
  simp [List.mem_append, hdec]

theorem chunksBeforeSort_cases (doc : List HNode) (css js : String)
    (c : ContentChunker.ContentChunk)
    (hc : c ∈ ContentChunker.chunksBeforeSort doc css js) :
    c ∈ (ContentChunker.extractAllSections doc
        (ContentChunker.allRecords (ContentChunker.analyzeImages doc)) css js).chunks
    ∨ c = ContentChunker.mixedChunkFor (ContentChunker.analyzeImages doc)
        (ContentChunker.extractAllSections doc
          (ContentChunker.allRecords (ContentChunker.analyzeImages doc)) css js).doc
        css js
        (ContentChunker.extractAllSections doc
          (ContentChunker.allRecords (ContentChunker.analyzeImages doc)) css js).nextId := by
  simp only [ContentChunker.chunksBeforeSort] at hc
  split at hc
  · rcases List.mem_append.mp hc with h1 | h2
    · exact Or.inl h1
    · exact Or.inr (List.mem_singleton.mp h2)
  · exact Or.inl hc

set_option maxHeartbeats 1000000 in
/-- C1 (amended): every image record attached to any chunk returned by
chunkContent is one of the records detected by analyzeImages on the same
document (chunking invents no image), though the total attached count can
differ from the analyzer's count (see the counterexample). -/
theorem chunk_images_from_analysis (doc : List HNode) (css js : String)
    (c : ContentChunker.ContentChunk) (i : ContentChunker.ImageInfo)
    (hc : c ∈ (ContentChunker.chunkContent doc css js).chunks)
    (hi : i ∈ c.images) :
    i ∈ ContentChunker.allRecords (ContentChunker.analyzeImages doc) := by
  have hch : (ContentChunker.chunkContent doc css js).chunks =
      ContentChunker.sortChunksByPriority (ContentChunker.chunksBeforeSort doc css js) := rfl
  rw [hch, mem_sortChunks] at hc
  rcases chunksBeforeSort_cases doc css js c hc with h1 | h2
  · obtain ⟨sty, _, cid, sec, rfl⟩ := extractAll_chunks_mem doc _ css js c h1
    exact sectionImages_sub _ sec i hi
  · rw [h2] at hi
    exact mixed_images_sub _ _ _ _ _ i hi

def docC1 : List HNode :=
  [HNode.elem "img" [("src", "http://example.com/pic.png")] []]

set_option maxRecDepth 40000 in
/-- Counterexample for C1: a document whose only (decorative) image sits in
markup claimed by no section and below the 100-character mixed-chunk
threshold yields zero chunks, so the chunked image total is 0 while the
analyzer detects 1 image. -/
theorem image_conservation_counterexample :
    ((ContentChunker.chunkContent docC1 "" "").chunks.map
        (fun c => c.images.length)).sum = 0
    ∧ (ContentChunker.analyzeImages docC1).count = 1 := by
  decide

def docC1W : List HNode :=
  [HNode.elem "header" []
    [HNode.text "Welcome to our wonderful store front page, greetings.",
     HNode.elem "img" [("src", "http://example.com/a.png")] []]]

set_option maxRecDepth 40000 in
/-- Witness for C1's amended theorem on a one-header document. -/
theorem chunk_images_from_analysis_witness :
    (ContentChunker.chunkContent docC1W "" "").chunks.headI.images.headI
      ∈ ContentChunker.allRecords (ContentChunker.analyzeImages docC1W) :=
  chunk_images_from_analysis docC1W "" ""
    ((ContentChunker.chunkContent docC1W "" "").chunks.headI)
    ((ContentChunker.chunkContent docC1W "" "").chunks.headI.images.headI)
    (by decide) (by decide)

theorem extract_chunks_not_mixed (doc : List HNode)
    (recs : List ContentChunker.ImageInfo) (css js : String)
    (c : ContentChunker.ContentChunk)
    (hc : c ∈ (ContentChunker.extractAllSections doc recs css js).chunks) :
    c.type ≠ ContentChunker.SectionType.mixed := by
  obtain ⟨sty, hsty, cid, sec, rfl⟩ := extractAll_chunks_mem doc recs css js c hc
  have hne : ∀ s ∈ ContentChunker.sectionTypesOrder,
      s ≠ ContentChunker.SectionType.mixed := by decide
  exact fun hmix => hne sty hsty hmix

set_option maxHeartbeats 1000000 in
/-- C6 (amended): when the trimmed leftover markup exceeds 100 characters,
chunkContent returns exactly one chunk of type mixed, and that chunk carries
the entire input css and javascript.  (Leftovers of 100 characters or fewer
produce no mixed chunk, and the mixed chunk sits in the low-priority bucket
before any footer chunk rather than last; see the counterexample.) -/
theorem mixed_chunk_spec (doc : List HNode) (css js : String)
    (hrem : 100 < (strTrim (renderList (ContentChunker.extractAllSections doc
        (ContentChunker.allRecords (ContentChunker.analyzeImages doc)) css
        js).doc)).length) :
    ((ContentChunker.chunkContent doc css js).chunks.filter
        (fun c => c.type == ContentChunker.SectionType.mixed)).length = 1
    ∧ ∀ c ∈ (ContentChunker.chunkContent doc css js).chunks,
        c.type = ContentChunker.SectionType.mixed →
        c.css = css ∧ c.javascript = js := by
  have hch : (ContentChunker.chunkContent doc css js).chunks =
      ContentChunker.sortChunksByPriority (ContentChunker.chunksBeforeSort doc css js) := rfl
  have hbs : ContentChunker.chunksBeforeSort doc css js =
      (ContentChunker.extractAllSections doc (ContentChunker.allRecords
        (ContentChunker.analyzeImages doc)) css js).chunks ++
      [ContentChunker.mixedChunkFor (ContentChunker.analyzeImages doc)
        (ContentChunker.extractAllSections doc (ContentChunker.allRecords
          (ContentChunker.analyzeImages doc)) css js).doc css js
        (ContentChunker.extractAllSections doc (ContentChunker.allRecords
          (ContentChunker.analyzeImages doc)) css js).nextId] := by
    simp only [ContentChunker.chunksBeforeSort]
    rw [if_pos hrem]
  constructor
  · rw [hch, ← List.countP_eq_length_filter, countP_sortChunks, hbs,
      List.countP_append]
    have h0 : (ContentChunker.extractAllSections doc (ContentChunker.allRecords
        (ContentChunker.analyzeImages doc)) css js).chunks.countP
        (fun c => c.type == ContentChunker.SectionType.mixed) = 0 := by
      rw [List.countP_eq_zero]
      intro c hcmem
      have hne := extract_chunks_not_mixed doc _ css js c hcmem
      simp [hne]
    rw [h0]
    rfl
  · intro c hcmem hcmix
    rw [hch, mem_sortChunks, hbs] at hcmem
    rcases List.mem_append.mp hcmem with h1 | h2
    · exact absurd hcmix (extract_chunks_not_mixed doc _ css js c h1)
    · rw [List.mem_singleton.mp h2]
      exact ⟨rfl, rfl⟩

def ftrElW : HNode :=
  HNode.elem "footer" []
    [HNode.text "Copyright 2024 Example Corporation, all rights reserved."]

def docC6A : List HNode :=
  [hdrElW, HNode.elem "span" [] [HNode.text "left over"]]

def docC6B : List HNode :=
  [ftrElW, HNode.elem "span" []
    [HNode.text "This remaining markup is long enough to exceed the one hundred character threshold used by the chunker, certainly."]]

set_option maxRecDepth 40000 in
/-- Counterexample for C6: (a) markup is left behind (non-empty trimmed
leftover) yet no mixed chunk is produced, because the leftover is at most
100 characters; (b) with a footer chunk present the mixed chunk is not
trailing: the sorted list ends with the footer. -/
theorem mixed_chunk_counterexample :
    (strTrim (renderList (ContentChunker.extractAllSections docC6A
        (ContentChunker.allRecords (ContentChunker.analyzeImages docC6A)) "c"
        "j").doc)).length ≠ 0
    ∧ ((ContentChunker.chunkContent docC6A "c" "j").chunks.filter
        (fun c => c.type == ContentChunker.SectionType.mixed)).length = 0
    ∧ ((ContentChunker.chunkContent docC6B "c" "j").chunks.map (fun c => c.type))
      = [.mixed, .footer] := by
  decide

set_option maxRecDepth 40000 in
/-- Witness for C6's amended theorem on a footer-plus-leftover document. -/
theorem mixed_chunk_spec_witness :
    ((ContentChunker.chunkContent docC6B "c" "j").chunks.filter
        (fun c => c.type == ContentChunker.SectionType.mixed)).length = 1
    ∧ ((ContentChunker.chunkContent docC6B "c" "j").chunks.headI.css = "c"
        ∧ (ContentChunker.chunkContent docC6B "c" "j").chunks.headI.javascript = "j") :=
  ⟨(mixed_chunk_spec docC6B "c" "j" (by decide)).1,
   (mixed_chunk_spec docC6B "c" "j" (by decide)).2
     ((ContentChunker.chunkContent docC6B "c" "j").chunks.headI)
     (by decide) (by decide)⟩
